import Mathlib

/-!
Verification of the firelight macro/expression engine.

A shallow embedding of the macro/expression engine of the firelight
repository (files `macro.py`, `ops.py`, `utils.py`, `parse.py`, `story.py`)
together with theorems settling the frozen claims about it.

Conventions of the embedding:

* Python runtime values are modelled by `PyVal`; Python exceptions by
  `PyErr`.  A Python function that can raise is modelled as returning
  `Except PyErr _`.
* An evaluation state (a Python `dict` keyed by strings) is modelled as an
  association list `PyState` with Python 3.7 dict semantics: setting an
  existing key overwrites it in place, setting a new key appends it at the
  end.
* `copy.deepcopy` on these pure values is the identity.
* Recursive calls in the interpreter consume `fuel`; running out of fuel
  models the CPython interpreter exhausting its recursion limit, which
  raises `RecursionError` (constructor `PyErr.recursionError`).
* Text is processed as `List Char`; all inputs of interest are ASCII.
-/

set_option maxHeartbeats 1000000

namespace Firelight

/-- Python exceptions raised by the engine (`macro.py` defines `ParseError`
and `EvalError`; `utils.py` defines `UnmatchedError`; the rest are Python
built-in exception types that the code can raise). -/
inductive PyErr where
  | typeError (msg : String)
  | attributeError (msg : String)
  | nameError (msg : String)
  | valueError (msg : String)
  | indexError (msg : String)
  | keyError (msg : String)
  | parseError (msg : String)
  | evalError (msg : String)
  | unmatchedError (msg : String)
  | runtimeError (msg : String)
  | recursionError
  deriving Repr, DecidableEq

mutual

/-- A node of the mutable parse tree built by `macro.parse_units`.  The
source represents nodes as Python dicts with keys `state`, `grouped`, `op`,
`arity`, `args`, `value`, and (on one buggy path) `complete`; the `parent`
back-references of the source are represented by a zipper during parsing
and are absent from finished trees (as after `scrub_parents`).  A missing
`grouped` key is identified with `false` (the source only reads it through
`.get("grouped", False)`); a missing `op`/`arity`/`value` key is identified
with Python `None` (`Option.none`), which the source treats
interchangeably in every read it performs. -/
inductive PTree where
  | mk (state : String) (grouped : Bool) (op : Option String)
       (arity : Option Nat) (args : List PTree) (value : Option PyVal)
       (completeKey : Bool)

/-- Python runtime values flowing through the engine: the data values of
the story language plus the interpreter-internal objects that the
dynamically-typed source lets flow through the same variables
(tuples, `VariableLookup`/`FunctionCall` parse leaves, `ops.Operator`
tokens, and parse subtrees). Floats are carried as their literal source
text: no claim input ever produces or consumes a float value.
`pyfunc` stands for an opaque function object: several builtins pass the
module-finder function positionally into the `context` parameter of
`eval_text`, so a function object can end up stored in the state. -/
inductive PyVal where
  | pynone
  | bool (b : Bool)
  | int (n : Int)
  | floatLit (s : String)
  | str (s : String)
  | list (l : List PyVal)
  | dict (d : List (PyVal × PyVal))
  | tuple (l : List PyVal)
  | varLookup (name : String)
  | funcCall (name : String) (args : List String)
  | oper (sym : String)
  | subtree (t : PTree)
  | pyfunc

end

/-- An evaluation state: a Python dict from variable names to values. -/
abbrev PyState := List (String × PyVal)

namespace PyState

/-- Dict lookup (`state[k]` / `state.get(k)`), first matching key. -/
def lookup (st : PyState) (k : String) : Option PyVal :=
  match st with
  | [] => none
  | (k₀, v₀) :: rest => if k₀ = k then some v₀ else lookup rest k

/-- Dict membership (`k in state`). -/
def contains (st : PyState) (k : String) : Bool :=
  match st with
  | [] => false
  | (k₀, _) :: rest => k₀ = k || contains rest k

/-- Dict assignment (`state[k] = v`): overwrite in place if the key is
present, else append at the end (Python 3.7 insertion-order semantics). -/
def set (st : PyState) (k : String) (v : PyVal) : PyState :=
  match st with
  | [] => [(k, v)]
  | (k₀, v₀) :: rest =>
      if k₀ = k then (k₀, v) :: rest else (k₀, v₀) :: set rest k v

/-- Dict update (`state.update(other)`): assign every binding of `other`
in order. -/
def update (st : PyState) (other : PyState) : PyState :=
  match other with
  | [] => st
  | (k, v) :: rest => update (set st k v) rest

/-- The list of keys of a state. -/
def keys (st : PyState) : List String := st.map Prod.fst

end PyState

/-- Python truthiness on `PyState` keys is not needed; states are dicts. -/
theorem PyState.lookup_nil (k : String) : PyState.lookup [] k = none := rfl

theorem PyState.lookup_set_self (st : PyState) (k : String) (v : PyVal) :
    (st.set k v).lookup k = some v := by
  induction st with
  | nil => simp [PyState.set, PyState.lookup]
  | cons hd tl ih =>
      obtain ⟨k₀, v₀⟩ := hd
      by_cases h : k₀ = k
      · simp [PyState.set, PyState.lookup, h]
      · simp [PyState.set, PyState.lookup, h, ih]

theorem PyState.lookup_set_other (st : PyState) (k k' : String) (v : PyVal)
    (h : k' ≠ k) : (st.set k v).lookup k' = st.lookup k' := by
  have h' : ¬ k = k' := fun hh => h hh.symm
  induction st with
  | nil => simp [PyState.set, PyState.lookup, h']
  | cons hd tl ih =>
      obtain ⟨k₀, v₀⟩ := hd
      by_cases h₀ : k₀ = k
      · subst h₀
        simp [PyState.set, PyState.lookup, h']
      · by_cases h₁ : k₀ = k'
        · subst h₁
          simp [PyState.set, PyState.lookup, h₀, h, h']
        · simp [PyState.set, PyState.lookup, h₀, h₁, ih]

theorem PyState.lookup_update_not_mem (st : PyState) (other : PyState)
    (k : String) (h : k ∉ other.keys) :
    (st.update other).lookup k = st.lookup k := by
  induction other generalizing st with
  | nil => rfl
  | cons hd tl ih =>
      obtain ⟨k₀, v₀⟩ := hd
      simp only [PyState.keys, List.map_cons, List.mem_cons] at h
      push_neg at h
      obtain ⟨h₁, h₂⟩ := h
      rw [PyState.update, ih _ (by simpa [PyState.keys] using h₂),
        PyState.lookup_set_other _ _ _ _ h₁]

theorem PyState.lookup_update_mem (st : PyState) (other : PyState)
    (k : String) (v : PyVal) (hnd : other.keys.Nodup)
    (h : (k, v) ∈ other) : (st.update other).lookup k = some v := by
  induction other generalizing st with
  | nil => simp at h
  | cons hd tl ih =>
      obtain ⟨k₀, v₀⟩ := hd
      simp only [PyState.keys, List.map_cons, List.nodup_cons] at hnd
      obtain ⟨hk₀, hndtl⟩ := hnd
      rcases List.mem_cons.mp h with h | h
      · rw [Prod.mk.injEq] at h
        obtain ⟨hk, hv⟩ := h
        subst hk; subst hv
        rw [PyState.update]
        have hnm : k ∉ PyState.keys tl := by
          simpa [PyState.keys] using hk₀
        rw [PyState.lookup_update_not_mem _ _ _ hnm, PyState.lookup_set_self]
      · exact ih (st.set k₀ v₀) hndtl h

/-! ## Character classes and small string helpers -/

/-- The backtick character, the quote character of the macro language. -/
def backtick : Char := Char.ofNat 96

/-- The regex class `[a-zA-Z_]` (first character of a macro name). -/
def isNameStart (c : Char) : Bool := c.isAlpha || c = '_'

/-- The regex class `[a-zA-Z_0-9.]` (subsequent characters of a macro
name, as in `MACRO_START`). -/
def isNameChar (c : Char) : Bool :=
  c.isAlpha || c.isDigit || c = '_' || c = '.'

/-- Python regex `\s`: `[ \t\n\r\f\v]`. -/
def isPySpace (c : Char) : Bool :=
  c = ' ' || c = '\t' || c = '\n' || c = '\r' ||
  c = Char.ofNat 11 || c = Char.ofNat 12

/-- Python regex `\w`: `[a-zA-Z0-9_]`. -/
def isPyWord (c : Char) : Bool := c.isAlpha || c.isDigit || c = '_'

/-- `s[i:j]` on a character list. -/
def slice (cs : List Char) (i j : Nat) : List Char := (cs.take j).drop i

/-- `str.strip()` on a character list: remove leading and trailing
whitespace. -/
def pyStripChars (cs : List Char) : List Char :=
  ((cs.dropWhile isPySpace).reverse.dropWhile isPySpace).reverse

/-- `str.strip()`: remove leading and trailing whitespace. -/
def pyStrip (s : String) : String := String.mk (pyStripChars s.data)

/-- `str.split(c)` for a single-character separator (`"".split(c)` is
`[""]`). -/
def splitOnChar (c : Char) : List Char → List (List Char)
  | [] => [[]]
  | x :: rest =>
      if x = c then [] :: splitOnChar c rest
      else
        match splitOnChar c rest with
        | h :: t => (x :: h) :: t
        | [] => [[x]]

/-- `src.split(chr(10))` as a list of strings. -/
def pySplitLines (s : String) : List String :=
  (splitOnChar '\n' s.data).map String.mk

/-- `s.count(c)` for a single character. -/
def countChar (s : String) (c : Char) : Nat := s.data.count c

/-! ## `utils.py`: `matching_brace` and `string_literal` -/

/-- Loop body of `utils.matching_brace`: `i` is the absolute index of the
head of `cs` in the original string; `layer` counts nested braces,
`quoted` tracks `"`-quoted regions and `escaped` backslash escapes. -/
def matchingBraceAux (op cl : Char) :
    List Char → Nat → Int → Bool → Bool → Except PyErr Nat
  | [], _, _, _, _ =>
      .error (.unmatchedError "Unmatched brace")
  | c :: rest, i, layer, quoted, escaped =>
      if c = '\\' then
        matchingBraceAux op cl rest (i + 1) layer quoted (!escaped)
      else if escaped then
        matchingBraceAux op cl rest (i + 1) layer quoted false
      else if c = '"' then
        matchingBraceAux op cl rest (i + 1) layer (!quoted) escaped
      else if quoted then
        matchingBraceAux op cl rest (i + 1) layer quoted escaped
      else if c = cl then
        if layer < 0 then .error (.runtimeError "Braces balance became negative?!?")
        else if layer = 0 then .ok i
        else matchingBraceAux op cl rest (i + 1) (layer - 1) quoted escaped
      else if c = op then
        matchingBraceAux op cl rest (i + 1) (layer + 1) quoted escaped
      else
        matchingBraceAux op cl rest (i + 1) layer quoted escaped

/-- `utils.matching_brace(src, idx, op, cl)`: index of the brace matching
the one assumed to sit at `idx`.  Nested braces and `"`-quoted regions are
skipped; raises `UnmatchedError` when no matching brace exists. -/
def matchingBrace (src : List Char) (idx : Nat) (op cl : Char) :
    Except PyErr Nat :=
  matchingBraceAux op cl (src.drop (idx + 1)) (idx + 1) 0 false false

/-- Loop body of `utils.string_literal`: scans from absolute index `i`,
decoding backslash escapes, until the closing quote `qc`. -/
def stringLiteralAux (qc : Char) :
    List Char → Nat → Bool → List Char → Except PyErr (Nat × String)
  | [], _, _, _ => .error (.unmatchedError "Unmatched quote")
  | c :: rest, i, escaped, acc =>
      if escaped then
        let add : List Char :=
          if c = qc then [qc]
          else if c = '\\' then ['\\']
          else if c = 'n' then ['\n']
          else if c = 'r' then ['\r']
          else if c = 't' then ['\t']
          else ['\\', c]
        stringLiteralAux qc rest (i + 1) false (acc ++ add)
      else if c = '\\' then
        stringLiteralAux qc rest (i + 1) true acc
      else if c = qc then
        .ok (i, String.mk acc)
      else
        stringLiteralAux qc rest (i + 1) false (acc ++ [c])

/-- `utils.string_literal(src, idx, qc)`: end index and decoded content of
the quoted literal whose opening quote sits at `idx`. -/
def stringLiteral (src : List Char) (idx : Nat) (qc : Char) :
    Except PyErr (Nat × String) :=
  stringLiteralAux qc (src.drop (idx + 1)) (idx + 1) false []

/-- Modelled from the spec: `utils.find_quoted_regions(content, qc)` is
referenced by `macro.split_macro_args` and listed among the
docstring-tested functions in `test.py`, but its definition is not part of
the sources; §4.1 of the spec says quoted regions (with backslash escapes
for the quote character) are found so that delimiters inside them are
ignored.  Following the inline quoted-region scan of
`utils.split_unquoted`, it returns the (start index, end index) pairs of
all `qc`-quoted literals, scanning left to right. -/
def findQuotedRegions (src : List Char) (qc : Char) :
    Except PyErr (List (Nat × Nat)) :=
  go src 0
where
  go : List Char → Nat → Except PyErr (List (Nat × Nat))
    | [], _ => .ok []
    | c :: rest, i =>
        if c = qc then
          match stringLiteralAux qc rest (i + 1) false [] with
          | .error e => .error e
          | .ok (ei, _) =>
              match go (rest.drop (ei - i)) (ei + 1) with
              | .error e => .error e
              | .ok regions => .ok ((i, ei) :: regions)
        else
          go rest (i + 1)
  termination_by cs _ => cs.length
  decreasing_by
    · simp only [List.length_cons]
      have := List.length_drop (ei - i) rest
      omega
    · simp [List.length_cons]

/-- Modelled from the spec: `utils.find_region(regions, idx)` is
referenced by `macro.split_macro_args` but absent from the sources; from
its use (`r = find_region(qrs, m.start()); if r: i = r[1]+1`) it returns
the region of `regions` containing index `idx`, or `None`. -/
def findRegion (regions : List (Nat × Nat)) (idx : Nat) :
    Option (Nat × Nat) :=
  match regions with
  | [] => none
  | (a, b) :: rest =>
      if a ≤ idx && idx ≤ b then some (a, b) else findRegion rest idx

/-! ## The `MACRO_START` regular expression

`MACRO_START = re.compile(r"\(([a-zA-Z_][a-zA-Z_0-9.]+)~")`: an opening
parenthesis, a macro name of at least two characters, and a tilde.  The
name class excludes the tilde, so the regex engine never backtracks: at
each start position the match is decided by a greedy scan of name
characters followed by a tilde check. -/

/-- Attempt to match `MACRO_START` exactly at position `p` of `src`.
On success, returns `(p, e, name)` where `e` is the end of the match
(`m.end()`, one past the tilde) and `name` is capture group 1. -/
def macroStartMatchAt (src : List Char) (p : Nat) :
    Option (Nat × Nat × String) :=
  match src.drop p with
  | c0 :: c1 :: rest =>
      if c0 = '(' && isNameStart c1 then
        let run := rest.takeWhile isNameChar
        if run.length ≥ 1 && (rest.drop run.length).head? = some '~' then
          some (p, p + 3 + run.length, String.mk (c1 :: run))
        else none
      else none
  | _ => none

/-- `MACRO_START.search(src, start)`: the leftmost match at a position
`≥ start`, if any. -/
def macroStartSearch (src : List Char) (start : Nat) :
    Option (Nat × Nat × String) :=
  go (src.length + 1 - start) start
where
  go : Nat → Nat → Option (Nat × Nat × String)
    | 0, _ => none
    | g + 1, p =>
        match macroStartMatchAt src p with
        | some r => some r
        | none => if p ≥ src.length then none else go g (p + 1)

/-! ## Python value printing and truthiness -/

/-- Left and right curly-brace strings (used only in reprs). -/
def lcurl : String := String.singleton (Char.ofNat 123)

def rcurl : String := String.singleton (Char.ofNat 125)

/-- The single-quote character as a string (used only in reprs). -/
def squote : String := String.singleton (Char.ofNat 39)

mutual

/-- Python `repr` of the values the engine can produce, fuel-indexed so
that the definition is structurally recursive and reduces inside the
kernel.  Every recursive call strictly decreases the combined `sizeOf`
of the value arguments, so any fuel above that size is sufficient and
the zero branch is unreachable (see `pyRepr`).  Interpreter-internal
objects (parse leaves, operators, subtrees) repr as an object
placeholder; their address-bearing Python reprs are never compared by
any theorem. -/
def pyReprF : Nat → PyVal → String
  | 0, _ => ""
  | fuel + 1, v =>
      match v with
      | .pynone => "None"
      | .bool b => if b then "True" else "False"
      | .int n => toString n
      | .floatLit s => s
      | .str s => squote ++ s ++ squote
      | .list l => "[" ++ pyReprSeqF fuel l ++ "]"
      | .tuple l => "(" ++ pyReprSeqF fuel l ++ ")"
      | .dict d => lcurl ++ pyReprPairsF fuel d ++ rcurl
      | .varLookup _ => "<VariableLookup>"
      | .funcCall _ _ => "<FunctionCall>"
      | .oper _ => "<Operator>"
      | .subtree _ => "<dict>"
      | .pyfunc => "<function>"

def pyReprSeqF : Nat → List PyVal → String
  | 0, _ => ""
  | _ + 1, [] => ""
  | fuel + 1, [x] => pyReprF fuel x
  | fuel + 1, x :: y :: rest =>
      pyReprF fuel x ++ ", " ++ pyReprSeqF fuel (y :: rest)

def pyReprPairsF : Nat → List (PyVal × PyVal) → String
  | 0, _ => ""
  | _ + 1, [] => ""
  | fuel + 1, [(k, v)] => pyReprF fuel k ++ ": " ++ pyReprF fuel v
  | fuel + 1, (k, v) :: p :: rest =>
      pyReprF fuel k ++ ": " ++ pyReprF fuel v ++ ", "
        ++ pyReprPairsF fuel (p :: rest)

end

mutual

/-- A structural size for values, used as the fuel bound of the
fuel-indexed recursions below (`subtree` counts as a leaf: no value
recursion ever descends into a parse tree). -/
def pvSize : PyVal → Nat
  | .list l => 1 + pvSizeList l
  | .tuple l => 1 + pvSizeList l
  | .dict d => 1 + pvSizePairs d
  | _ => 1

def pvSizeList : List PyVal → Nat
  | [] => 1
  | x :: rest => 1 + pvSize x + pvSizeList rest

def pvSizePairs : List (PyVal × PyVal) → Nat
  | [] => 1
  | (k, v) :: rest => 1 + pvSize k + pvSize v + pvSizePairs rest

end

/-- Python `repr`, with fuel fixed above the recursion depth. -/
def pyRepr (v : PyVal) : String := pyReprF (pvSize v + 1) v

/-- Python `str` (as used by `macro.to_string`): like `repr` except that a
string prints without quotes. -/
def pyStr : PyVal → String
  | .str s => s
  | v => pyRepr v

/-- Whether the digits of a float literal are all zero (then the value it
denotes is `0.0`).  Underflowing literals such as `1e-999` are not
distinguished; no claim input involves floats at all. -/
def floatTextIsZero (s : String) : Bool :=
  (s.data.filter Char.isDigit).all (· = '0')

/-- Python truthiness (`bool(v)`). -/
def pyTruthy : PyVal → Bool
  | .pynone => false
  | .bool b => b
  | .int n => !(n = 0)
  | .floatLit s => !(floatTextIsZero s)
  | .str s => !(s = "")
  | .list l => !(l.isEmpty)
  | .tuple l => !(l.isEmpty)
  | .dict d => !(d.isEmpty)
  | .varLookup _ => true
  | .funcCall _ _ => true
  | .oper _ => true
  | .subtree _ => true
  | .pyfunc => true

/-! ## Python equality and ordering on values -/

mutual

/-- Python `==` on engine values, fuel-indexed so that the definition is
structurally recursive and reduces inside the kernel; every recursive
call strictly decreases the combined `sizeOf` of the value arguments,
so any fuel above that size is sufficient and the zero branch is
unreachable (see `pyEqB`).  Booleans are numbers (`True == 1`); dict
comparison is order-insensitive (equal length plus containment, with
nodup keys, which all dicts built by the engine have).  Floats are
compared by literal text and interpreter-internal objects by identity
structure; neither is reached by any claim input. -/
def pyEqBF : Nat → PyVal → PyVal → Bool
  | 0, _, _ => false
  | fuel + 1, a, b =>
      match a, b with
      | .pynone, .pynone => true
      | .bool a, .bool b => a = b
      | .bool a, .int b => (if a then (1 : Int) else 0) = b
      | .int a, .bool b => a = (if b then (1 : Int) else 0)
      | .int a, .int b => a = b
      | .floatLit a, .floatLit b => a = b
      | .str a, .str b => a = b
      | .list a, .list b => pyEqListF fuel a b
      | .tuple a, .tuple b => pyEqListF fuel a b
      | .dict a, .dict b => a.length = b.length && pyDictLeF fuel a b
      | .oper a, .oper b => a = b
      | _, _ => false

def pyEqListF : Nat → List PyVal → List PyVal → Bool
  | 0, _, _ => false
  | _ + 1, [], [] => true
  | fuel + 1, x :: xs, y :: ys => pyEqBF fuel x y && pyEqListF fuel xs ys
  | _ + 1, _, _ => false

def pyDictLeF : Nat → List (PyVal × PyVal) → List (PyVal × PyVal) → Bool
  | 0, _, _ => false
  | _ + 1, [], _ => true
  | fuel + 1, (k, v) :: rest, ys =>
      pyDictHasF fuel ys k v && pyDictLeF fuel rest ys

def pyDictHasF : Nat → List (PyVal × PyVal) → PyVal → PyVal → Bool
  | 0, _, _, _ => false
  | _ + 1, [], _, _ => false
  | fuel + 1, (k₂, v₂) :: rest, k, v =>
      (pyEqBF fuel k k₂ && pyEqBF fuel v v₂) || pyDictHasF fuel rest k v

end

/-- Python `==`, with fuel fixed above the recursion depth. -/
def pyEqB (a b : PyVal) : Bool := pyEqBF (pvSize a + pvSize b + 1) a b

mutual

/-- Python `<` on engine values, as exercised inside the comparison
operators of `ops.py`: numeric comparison (booleans count as ints),
lexicographic comparison of strings, lists and tuples; everything else
(including floats, whose numeric value this development does not
interpret) raises `TypeError`, which the comparison operators catch. -/
def pyLtB : PyVal → PyVal → Except PyErr Bool
  | .bool a, .bool b => .ok ((if a then (1 : Int) else 0) < (if b then 1 else 0))
  | .bool a, .int b => .ok ((if a then (1 : Int) else 0) < b)
  | .int a, .bool b => .ok (a < (if b then (1 : Int) else 0))
  | .int a, .int b => .ok (a < b)
  | .str a, .str b => .ok (decide (a < b))
  | .list a, .list b => pyLtList a b
  | .tuple a, .tuple b => pyLtList a b
  | _, _ => .error (.typeError "unorderable types")

def pyLtList : List PyVal → List PyVal → Except PyErr Bool
  | [], [] => .ok false
  | [], _ :: _ => .ok true
  | _ :: _, [] => .ok false
  | x :: xs, y :: ys =>
      if pyEqB x y then pyLtList xs ys
      else pyLtB x y

end

/-- Python sequence unpacking `a, b = v` of a value into two names:
succeeds on 2-element tuples and lists (and 2-character strings), raises
`ValueError` on iterables of other sizes and `TypeError` otherwise. -/
def pyUnpack2 : PyVal → Except PyErr (PyVal × PyVal)
  | .tuple [a, b] => .ok (a, b)
  | .tuple _ => .error (.valueError "unpack: wrong number of values")
  | .list [a, b] => .ok (a, b)
  | .list _ => .error (.valueError "unpack: wrong number of values")
  | .str s =>
      match s.data with
      | [a, b] => .ok (.str (String.mk [a]), .str (String.mk [b]))
      | _ => .error (.valueError "unpack: wrong number of values")
  | _ => .error (.typeError "cannot unpack non-iterable value")

/-- Python subscript `a[0]`, as performed on each operand by
`ops.op_result` when it computes `types = [a[0] for a in args]`. -/
def pySubscript0 : PyVal → Except PyErr PyVal
  | .tuple (x :: _) => .ok x
  | .tuple [] => .error (.indexError "tuple index out of range")
  | .list (x :: _) => .ok x
  | .list [] => .error (.indexError "list index out of range")
  | .str s =>
      match s.data with
      | c :: _ => .ok (.str (String.mk [c]))
      | [] => .error (.indexError "string index out of range")
  | .dict _ => .error (.keyError "0")
  | .int _ => .error (.typeError "int object is not subscriptable")
  | .bool _ => .error (.typeError "bool object is not subscriptable")
  | _ => .error (.typeError "object is not subscriptable")

/-! ## `ops.py`: precedence table, registry, and operator functions -/

/-- `ops.OPERATOR_PRECEDENCE`. -/
def OPERATOR_PRECEDENCE : List (String × Nat) :=
  [("[", 10000), (".", 50), ("%", 20), ("+", 50), ("-", 50), ("*", 100),
   ("**", 200), ("~", 200), ("~~", 200), ("|", 200), ("&", 200),
   ("^", 200), ("^^", 200), ("/", 200), ("//", 200), ("=", 10),
   ("<", 10), (">", 10), ("<=", 10), (">=", 10), ("!=", 10), ("!", 1000),
   ("and", 5), ("or", 5), ("not", 5)]

/-- The keys of `ops.ALL_OPS` together with the number of implementations
registered for each (via the `@op` decorators of `ops.py`, in
registration order).  Only membership and non-emptiness are observable:
`resolve_op` raises before inspecting any candidate pattern or function
(see `resolveOp`). -/
def ALL_OPS : List (String × Nat) :=
  [("not", 1), ("+", 7), ("-", 4), ("~", 3), ("*", 3), ("/", 3),
   ("//", 2), ("**", 1), ("%", 1), ("=", 1), ("!=", 1), ("<", 1),
   (">", 1), ("<=", 1), (">=", 1), ("&", 2), ("|", 3), ("^", 2),
   ("~~", 1), ("^^", 1), (".", 2)]

/-- `ops.resolve_op(op, *types)`.  In this snapshot the function can
never return: an unknown operator raises
`ValueError("Unknown operation ...")`; otherwise the candidate loop body
evaluates `len(args)` where no name `args` is in scope (the parameter is
`types`), so the first candidate raises `NameError` — and every
registered operator has at least one candidate (`ALL_OPS`).  The
`Empty` result type records that no success is possible. -/
def resolveOp (op : PyVal) (types : PyVal) : Except PyErr Empty :=
  match op with
  | .str s =>
      match ALL_OPS.lookup s with
      | none => .error (.valueError ("Unknown operation " ++ s))
      | some 0 => .error (.valueError "No match for operator")
      | some (_ + 1) => .error (.nameError "name args is not defined")
  | _ => .error (.valueError "Unknown operation")

/-- `ops.op_result(op, state, *args)`: subscripts each argument with
`a[0]` to obtain its type tag, then calls `resolve_op(op, types)` —
which always raises (see `resolveOp`), so `op_result` itself can never
return normally. -/
def opResult (op : PyVal) (state : PyState) (args : List PyVal) :
    Except PyErr (PyVal × PyState) :=
  match args.mapM pySubscript0 with
  | .error e => .error e
  | .ok types =>
      match resolveOp op (.list types) with
      | .error e => .error e
      | .ok f => f.elim

/-- `ops.is_true(typ, val)`: truth-value assignment; note the arity —
two parameters, no defaults. -/
def isTrue (typ val : PyVal) : Bool := pyTruthy val

/-- `ops.is_numeric(typ)`. -/
def isNumeric (typ : PyVal) : Bool :=
  pyEqB typ (.str "int") || pyEqB typ (.str "float")

/-- The guard shared by the four ordering comparisons of `ops.py`:
same variant, or both numeric. -/
def comparableTags (t₁ t₂ : PyVal) : Bool :=
  pyEqB t₁ t₂ || (isNumeric t₁ && isNumeric t₂)

/-- `ops.less` (registered for `('<', '*', '*')`).  Note the returns:
on comparable tags it returns the bare pair `("boolean", v1 < v2)` — not
paired with the state — and on incomparable tags (or a `TypeError` from
the comparison) it returns the bare Python value `False`. -/
def lessOp (state : PyState) (lhs rhs : PyVal) : Except PyErr PyVal :=
  match pyUnpack2 lhs with
  | .error e => .error e
  | .ok (t₁, v₁) =>
      match pyUnpack2 rhs with
      | .error e => .error e
      | .ok (t₂, v₂) =>
          if comparableTags t₁ t₂ then
            match pyLtB v₁ v₂ with
            | .ok b => .ok (.tuple [.str "boolean", .bool b])
            | .error _ => .ok (.bool false)
          else
            .ok (.bool false)

/-- `ops.greater`: same structure as `ops.less` with the comparison
reversed. -/
def greaterOp (state : PyState) (lhs rhs : PyVal) : Except PyErr PyVal :=
  match pyUnpack2 lhs with
  | .error e => .error e
  | .ok (t₁, v₁) =>
      match pyUnpack2 rhs with
      | .error e => .error e
      | .ok (t₂, v₂) =>
          if comparableTags t₁ t₂ then
            match pyLtB v₂ v₁ with
            | .ok b => .ok (.tuple [.str "boolean", .bool b])
            | .error _ => .ok (.bool false)
          else
            .ok (.bool false)

/-- `ops.leq`. -/
def leqOp (state : PyState) (lhs rhs : PyVal) : Except PyErr PyVal :=
  match pyUnpack2 lhs with
  | .error e => .error e
  | .ok (t₁, v₁) =>
      match pyUnpack2 rhs with
      | .error e => .error e
      | .ok (t₂, v₂) =>
          if comparableTags t₁ t₂ then
            match pyLtB v₂ v₁ with
            | .ok b => .ok (.tuple [.str "boolean", .bool (!b)])
            | .error _ => .ok (.bool false)
          else
            .ok (.bool false)

/-- `ops.geq`. -/
def geqOp (state : PyState) (lhs rhs : PyVal) : Except PyErr PyVal :=
  match pyUnpack2 lhs with
  | .error e => .error e
  | .ok (t₁, v₁) =>
      match pyUnpack2 rhs with
      | .error e => .error e
      | .ok (t₂, v₂) =>
          if comparableTags t₁ t₂ then
            match pyLtB v₁ v₂ with
            | .ok b => .ok (.tuple [.str "boolean", .bool (!b)])
            | .error _ => .ok (.bool false)
          else
            .ok (.bool false)

/-- `len(v)` for Python sequences. -/
def pyLen : PyVal → Except PyErr Nat
  | .list l => .ok l.length
  | .tuple l => .ok l.length
  | .str s => .ok s.length
  | .dict d => .ok d.length
  | _ => .error (.typeError "object has no len")

/-- `lst[0]` on a Python list. -/
def pyListHead : PyVal → Except PyErr PyVal
  | .list (x :: _) => .ok x
  | .list [] => .error (.indexError "list index out of range")
  | _ => .error (.typeError "not a list")

/-- The fold loop of `ops.reduce_lst`: for each later element the source
calls `op_result` twice (once folding in the seed again and once folding
in the element); both calls raise (see `opResult`), so the loop
propagates an error on its first iteration whenever it runs. -/
def reduceFold (op : PyVal) (state : PyState) (seed : PyVal) :
    PyVal → List PyVal → Except PyErr (PyVal × PyState)
  | result, [] => .ok (result, state)
  | result, lv :: rest =>
      match opResult op state [result, seed] with
      | .error e => .error e
      | .ok (result', state') =>
          match opResult op state' [result', lv] with
          | .error e => .error e
          | .ok (result'', state'') =>
              reduceFold op state'' seed result'' rest

/-- `ops.reduce_lst(state, lhs, rhs, rrhs)` (registered for
`('|', 'list', 'op', '*')`): unpacks its operands, returns a seed-variant
zero on a zero-length list — falling through to `lst[0]` (an
`IndexError`) when the seed variant is none of int/float/string/list/dict
— and otherwise folds with `op_result`. -/
def reduceLst (state : PyState) (lhs rhs rrhs : PyVal) :
    Except PyErr (PyVal × PyState) :=
  match pyUnpack2 lhs with
  | .error e => .error e
  | .ok (_, lst) =>
      match pyUnpack2 rhs with
      | .error e => .error e
      | .ok (_, op) =>
          match pyUnpack2 rrhs with
          | .error e => .error e
          | .ok (typ, val) =>
              match pyLen lst with
              | .error e => .error e
              | .ok n =>
                  if n = 0 && pyEqB typ (.str "int") then
                    .ok (.tuple [.str "int", .int 0], state)
                  else if n = 0 && pyEqB typ (.str "float") then
                    .ok (.tuple [.str "float", .int 0], state)
                  else if n = 0 && pyEqB typ (.str "string") then
                    .ok (.tuple [.str "string", .str ""], state)
                  else if n = 0 && pyEqB typ (.str "list") then
                    .ok (.tuple [.str "list", .list []], state)
                  else if n = 0 && pyEqB typ (.str "dict") then
                    .ok (.tuple [.str "dict", .dict []], state)
                  else
                    match pyListHead lst with
                    | .error e => .error e
                    | .ok first =>
                        match lst with
                        | .list (_ :: rest) =>
                            reduceFold op state (.tuple [typ, val]) first rest
                        | _ => .error (.typeError "not a list")

/-! ## `macro.lex_expr`: the expression lexer -/

/-- A lexical unit as produced by `macro.lex_expr` (a `(kind, value)`
pair in the source).  The `group` and `index` kinds appear in the parser
but can never be produced: the corresponding lexer lines call
`units.append` with two arguments, which raises `TypeError`
(see `lexExpr`). -/
inductive LexUnit where
  | word (s : String)
  | intU (n : Int)
  | floatU (s : String)
  | strU (s : String)
  | call (s : String)
  | group (s : String)
  | index (s : String)
  | opU (s : String)
  deriving DecidableEq, Repr

/-- Digit value of a hex character, if valid for the given base. -/
def hexVal (c : Char) : Option Nat :=
  let n := c.toNat
  if 48 ≤ n ∧ n ≤ 57 then some (n - 48)
  else if 97 ≤ n ∧ n ≤ 102 then some (n - 87)
  else if 65 ≤ n ∧ n ≤ 70 then some (n - 55)
  else none

/-- Python `int(text, base)` on the texts matched by `INT_CONSTANT`:
optional sign, optional `0x`/`0o` prefix (accepted only when it agrees
with the base), then digits valid for the base; `none` models
`ValueError`. -/
def pyIntParse (text : List Char) (base : Nat) : Option Int :=
  let (sign, rest) :=
    match text with
    | '+' :: r => ((1 : Int), r)
    | '-' :: r => ((-1 : Int), r)
    | r => ((1 : Int), r)
  let rest :=
    match rest with
    | '0' :: 'x' :: r => if base = 16 then some r else none
    | '0' :: 'o' :: r => if base = 8 then some r else none
    | r => some r
  match rest with
  | none => none
  | some ds =>
      if ds.isEmpty then none
      else
        let step : Option Nat → Char → Option Nat := fun acc c =>
          match acc, hexVal c with
          | some a, some d => if d < base then some (a * base + d) else none
          | _, _ => none
        match ds.foldl step (some 0) with
        | some n => some (sign * n)
        | none => none

/-- A match of `INT_CONSTANT = ([+-])?(0[xo])?([0-9A-Fa-f])+` at a given
position: the matched text, the end index, and capture group 2 (the
base prefix), or `none`.  The digit class excludes `x`/`o`, so the only
backtracking the regex can perform is giving up an unusable prefix. -/
def intConstMatchAt (src : List Char) (p : Nat) :
    Option (List Char × Nat × Option String) :=
  let cs := src.drop p
  let (sign, cs₁) :=
    match cs with
    | '+' :: r => (['+'], r)
    | '-' :: r => (['-'], r)
    | r => (([] : List Char), r)
  let isHex : Char → Bool := fun c => (hexVal c).isSome
  match cs₁ with
  | '0' :: 'x' :: r =>
      if (r.headD ' ').isDigit || isHex (r.headD ' ') then
        let run := r.takeWhile isHex
        some (sign ++ '0' :: 'x' :: run, p + sign.length + 2 + run.length,
          some "0x")
      else
        -- prefix unusable: fall back to just the leading zero digit
        some (sign ++ ['0'], p + sign.length + 1, none)
  | '0' :: 'o' :: r =>
      if isHex (r.headD ' ') then
        let run := r.takeWhile isHex
        some (sign ++ '0' :: 'o' :: run, p + sign.length + 2 + run.length,
          some "0o")
      else
        some (sign ++ ['0'], p + sign.length + 1, none)
  | r =>
      let run := r.takeWhile isHex
      if run.isEmpty then none
      else some (sign ++ run, p + sign.length + run.length, none)

/-- A match of
`FLOAT_CONSTANT = ([+-])?([0-9]+)(\.[0-9]*)?([eE][+-]?[0-9]+)?` at a
given position: the matched text and its end index. -/
def floatConstMatchAt (src : List Char) (p : Nat) :
    Option (List Char × Nat) :=
  let cs := src.drop p
  let (sign, cs₁) :=
    match cs with
    | '+' :: r => (['+'], r)
    | '-' :: r => (['-'], r)
    | r => (([] : List Char), r)
  let intPart := cs₁.takeWhile Char.isDigit
  if intPart.isEmpty then none
  else
    let cs₂ := cs₁.drop intPart.length
    let (fracPart, cs₃) :=
      match cs₂ with
      | '.' :: r =>
          let ds := r.takeWhile Char.isDigit
          ('.' :: ds, r.drop ds.length)
      | r => (([] : List Char), r)
    let expPart : List Char :=
      match cs₃ with
      | 'e' :: '+' :: r =>
          let ds := r.takeWhile Char.isDigit
          if ds.isEmpty then [] else 'e' :: '+' :: ds
      | 'e' :: '-' :: r =>
          let ds := r.takeWhile Char.isDigit
          if ds.isEmpty then [] else 'e' :: '-' :: ds
      | 'e' :: r =>
          let ds := r.takeWhile Char.isDigit
          if ds.isEmpty then [] else 'e' :: ds
      | 'E' :: '+' :: r =>
          let ds := r.takeWhile Char.isDigit
          if ds.isEmpty then [] else 'E' :: '+' :: ds
      | 'E' :: '-' :: r =>
          let ds := r.takeWhile Char.isDigit
          if ds.isEmpty then [] else 'E' :: '-' :: ds
      | 'E' :: r =>
          let ds := r.takeWhile Char.isDigit
          if ds.isEmpty then [] else 'E' :: ds
      | _ => []
    let txt := sign ++ intPart ++ fracPart ++ expPart
    some (txt, p + txt.length)

/-- The operator-or-quote character class of the end-of-word check at the
top of the `lex_expr` loop (`"()[]+-%&|./*^=<>!\"'"`). -/
def lexBreakChars : List Char :=
  ['(', ')', '[', ']', '+', '-', '%', '&', '|', '.', '/', '*', '^',
   '=', '<', '>', '!', '"', Char.ofNat 39]

/-- One iteration of the `lex_expr` loop, processing the character at
index `p` (the source tracks the pre-increment index `i = p - 1`; its
loop condition `i < len(expr) - 1` is `p < len(expr)` here); `sval` is
the accumulated word (Python `None` or a nonempty string), `units` the
output so far.  `gas` bounds the number of iterations; the scan position
strictly increases each iteration, so `src.length + 2` iterations always
suffice and the gas branch is unreachable. -/
def lexLoop (src : List Char) :
    Nat → Nat → Option String → List LexUnit → Except PyErr (List LexUnit)
  | 0, _, _, _ => .error (.runtimeError "lex gas exhausted (unreachable)")
  | gas + 1, p, sval, units =>
      if p ≥ src.length then
        -- loop condition `i < len(expr) - 1` failed
        match sval with
        | some w => .ok (units ++ [.word w])
        | none => .ok units
      else
        let c := src.getD p ' '
        -- end-of-word check (separate `if` in the source)
        let (sval, units) :=
          if lexBreakChars.contains c && sval.isSome then
            (none, units ++ [.word (sval.getD "")])
          else (sval, units)
        if c = ' ' || c = '\n' || c = '\r' || c = '\t' then
          match sval with
          | some w => lexLoop src gas (p + 1) none (units ++ [.word w])
          | none => lexLoop src gas (p + 1) none units
        else if c = '(' then
          match macroStartSearch src p with
          | none =>
              -- `start = m.start()` on a failed search
              .error (.attributeError "NoneType object has no attribute start")
          | some (start, _, _) =>
              if start = p then
                match matchingBrace src p '(' ')' with
                | .error e => .error e
                | .ok endIdx =>
                    lexLoop src gas (endIdx + 1) sval
                      (units ++ [.call (String.mk (slice src start (endIdx + 1)))])
              else
                -- `units.append("group", "open")`: two-argument append
                .error (.typeError "append() takes exactly one argument (2 given)")
        else if c = ')' || c = '[' || c = ']' then
          -- `units.append("group"/"index", ...)`: two-argument append
          .error (.typeError "append() takes exactly one argument (2 given)")
        else if c = '+' || c = '-' || c = '&' || c = '|' || c = '.' then
          lexLoop src gas (p + 1) sval (units ++ [.opU (String.mk [c])])
        else if c = '/' || c = '*' || c = '%' || c = '^' then
          -- `expr[i+1]` raises when the operator ends the expression
          if p + 1 ≥ src.length then
            .error (.indexError "string index out of range")
          else if src.getD (p + 1) ' ' = c then
            lexLoop src gas (p + 2) sval (units ++ [.opU (String.mk [c, c])])
          else
            lexLoop src gas (p + 1) sval (units ++ [.opU (String.mk [c])])
        else if c = '=' then
          if p + 1 ≥ src.length then
            .error (.indexError "string index out of range")
          else if src.getD (p + 1) ' ' = '=' then
            lexLoop src gas (p + 2) sval (units ++ [.opU "="])
          else
            lexLoop src gas (p + 1) sval (units ++ [.opU "="])
        else if c = '<' || c = '>' || c = '!' then
          if p + 1 ≥ src.length then
            .error (.indexError "string index out of range")
          else if src.getD (p + 1) ' ' = '=' then
            lexLoop src gas (p + 2) sval
              (units ++ [.opU (String.mk [c, '='])])
          else
            lexLoop src gas (p + 1) sval (units ++ [.opU (String.mk [c])])
        else if c = 'a' && slice src p (p + 3) = ['a', 'n', 'd'] then
          match sval with
          | some w => lexLoop src gas (p + 3) (some (w ++ "and")) units
          | none => lexLoop src gas (p + 3) none (units ++ [.opU "and"])
        else if c = 'o' && slice src p (p + 2) = ['o', 'r'] then
          match sval with
          | some w => lexLoop src gas (p + 2) (some (w ++ "or")) units
          | none => lexLoop src gas (p + 2) none (units ++ [.opU "or"])
        else if c = 'n' && slice src p (p + 3) = ['n', 'o', 't'] then
          match sval with
          | some w => lexLoop src gas (p + 3) (some (w ++ "not")) units
          | none => lexLoop src gas (p + 3) none (units ++ [.opU "not"])
        else if c.isDigit then
          match sval with
          | some w => lexLoop src gas (p + 1) (some (w.push c)) units
          | none =>
              let intRes :=
                match intConstMatchAt src p with
                | some (txt, endIdx, pre) =>
                    let base :=
                      match pre with
                      | some "0x" => 16
                      | some "0o" => 8
                      | _ => 10
                    match pyIntParse txt base with
                    | some n => some (n, endIdx)
                    | none => none
                | none => none
              match intRes with
              | some (n, endIdx) =>
                  -- `i = m.end(); continue`: the next iteration advances
                  -- past `m.end()`, skipping the character at that index
                  lexLoop src gas (endIdx + 1) none (units ++ [.intU n])
              | none =>
                  match floatConstMatchAt src p with
                  | some (txt, endIdx) =>
                      lexLoop src gas (endIdx + 1) none
                        (units ++ [.floatU (String.mk txt)])
                  | none => lexLoop src gas (p + 1) (some (String.mk [c])) units
        else if c = backtick then
          match stringLiteral src p backtick with
          | .error e => .error e
          | .ok (ei, qc) =>
              lexLoop src gas (ei + 1) sval (units ++ [.strU qc])
        else
          match sval with
          | some w => lexLoop src gas (p + 1) (some (w.push c)) units
          | none => lexLoop src gas (p + 1) (some (String.mk [c])) units

/-- `macro.lex_expr(expr)`: lexes an expression into syntax units. -/
def lexExpr (expr : String) : Except PyErr (List LexUnit) :=
  lexLoop expr.data (expr.data.length + 2) 0 none []

/-- Membership in a state with nodup keys determines `lookup`. -/
theorem PyState.lookup_of_mem (st : PyState) (k : String) (v : PyVal)
    (hnd : st.keys.Nodup) (h : (k, v) ∈ st) : st.lookup k = some v := by
  induction st with
  | nil => simp at h
  | cons hd tl ih =>
      obtain ⟨k₀, v₀⟩ := hd
      simp only [PyState.keys, List.map_cons, List.nodup_cons] at hnd
      obtain ⟨hk₀, hndtl⟩ := hnd
      rcases List.mem_cons.mp h with h | h
      · rw [Prod.mk.injEq] at h
        obtain ⟨hk, hv⟩ := h
        subst hk; subst hv
        simp [PyState.lookup]
      · rw [PyState.lookup]
        have hne : ¬ k₀ = k := by
          intro hk
          subst hk
          exact hk₀ (List.mem_map.mpr ⟨(k₀, v), h, rfl⟩)
        simp only [hne, if_false]
        exact ih hndtl h

/-! ## `macro.split_macro_args` -/

/-- First index `≥ i` holding character `c`, if any
(`content.index(c, i)` without the `ValueError`). -/
def indexOfFrom (cs : List Char) (c : Char) (i : Nat) : Option Nat :=
  match (cs.drop i).findIdx? (· = c) with
  | some j => some (i + j)
  | none => none

/-- Insertion of a pair into a lexicographically sorted list
(Python `sorted` on tuples). -/
def insertPair (x : Nat × Nat) : List (Nat × Nat) → List (Nat × Nat)
  | [] => [x]
  | y :: rest =>
      if x.1 < y.1 || (x.1 = y.1 && x.2 ≤ y.2) then x :: y :: rest
      else y :: insertPair x rest

/-- Python `sorted` on a list of index pairs. -/
def sortPairs (l : List (Nat × Nat)) : List (Nat × Nat) :=
  l.foldr insertPair []

/-- The macro-region scan of `split_macro_args`: starting from `i`, find
each `MACRO_START` match that is not inside a quoted region, record the
span up to its matching brace, and skip past it; a match with no matching
brace (`UnmatchedError`) is skipped past its sigil.  `gas` bounds the
iterations (the scan position strictly increases). -/
def macroRegions (content : List Char) (qrs : List (Nat × Nat)) :
    Nat → Nat → Except PyErr (List (Nat × Nat))
  | 0, _ => .error (.runtimeError "macro region gas exhausted (unreachable)")
  | gas + 1, i =>
      if i ≥ content.length then .ok []
      else
        match macroStartSearch content i with
        | none => .ok []
        | some (mStart, mEnd, _) =>
            match findRegion qrs mStart with
            | some r => macroRegions content qrs gas (r.2 + 1)
            | none =>
                match matchingBrace content mStart '(' ')' with
                | .ok mCl =>
                    match macroRegions content qrs gas (mCl + 1) with
                    | .error e => .error e
                    | .ok rest => .ok ((mStart, mCl) :: rest)
                | .error (.unmatchedError _) =>
                    -- malformed macro: skip to the end of the macro start
                    macroRegions content qrs gas (mEnd + 1)
                | .error e => .error e

/-- The delimiter scan of `split_macro_args`: find each `~` that is not
inside an excluded region (pushing the search past any region containing
it, one pass over the sorted regions as in the source) and split
there. -/
def splitOnDelims (content : List Char) (exrs : List (Nat × Nat)) :
    Nat → Nat → List String
  | 0, _ => []
  | gas + 1, i =>
      if i ≥ content.length then []
      else
        let di₀ :=
          match indexOfFrom content '~' i with
          | some d => d
          | none => content.length
        let di := exrs.foldl
          (fun di exr =>
            if di ≥ content.length then di
            else if exr.1 ≤ di && di ≤ exr.2 then
              match indexOfFrom content '~' (exr.2 + 1) with
              | some d => d
              | none => content.length
            else di)
          di₀
        String.mk (slice content i di) :: splitOnDelims content exrs gas (di + 1)

/-- `macro.split_macro_args(content)`: split macro content into raw
argument strings on `~` delimiters, treating backtick-quoted regions and
interior macro calls as opaque.  Relies on the spec-modelled
`findQuotedRegions`/`findRegion` (see their doc comments). -/
def splitMacroArgs (content : List Char) : Except PyErr (List String) :=
  match findQuotedRegions content backtick with
  | .error e => .error e
  | .ok qrs =>
      match macroRegions content qrs (content.length + 2) 0 with
      | .error e => .error e
      | .ok mrs =>
          .ok (splitOnDelims content (sortPairs (qrs ++ mrs))
            (content.length + 2) 0)

/-! ## `story.py`: stories and story nodes -/

/-- `story.StoryNode`: a named story node; `successors` maps a display
label either to a destination string or to a
`[destination, transition]` list. -/
structure StoryNode where
  name : String
  content : String
  successors : List (String × PyVal)

/-- `story.Story`.  The `current_node_text` and `module_finder` fields of
the source class play no role in parsing, rendering, equality or macro
evaluation and are omitted.  `modules` and `setup` are arbitrary Python
values: `parse_story` passes the parsed `state` metadata as the fifth
positional argument, which is `modules`. -/
structure Story where
  title : String
  author : String
  start : String
  nodes : List (String × StoryNode)
  modules : PyVal
  setup : PyVal

/-- A module finder (`module_finder`): an external capability mapping a
module name to a `Story`, or `None`. -/
abbrev ModuleFinder := String → Option Story

/-- Association lookup among story nodes (`story.nodes[name]`). -/
def nodesLookup (nodes : List (String × StoryNode)) (k : String) :
    Option StoryNode :=
  match nodes with
  | [] => none
  | (k₀, v₀) :: rest => if k₀ = k then some v₀ else nodesLookup rest k

/-- `name in story.nodes`. -/
def nodesContains (nodes : List (String × StoryNode)) (k : String) : Bool :=
  (nodesLookup nodes k).isSome

/-- `Story.__init__` normalization of the `modules` argument
(`modules or []`). -/
def storyModulesInit (modules : PyVal) : PyVal :=
  if pyTruthy modules then modules else .list []

/-- `Story.__init__` normalization of the `setup` argument
(`setup or` empty dict). -/
def storySetupInit (setup : PyVal) : PyVal :=
  if pyTruthy setup then setup else .dict []

/-- `story.Story(title, author, start, nodes, modules, setup)`:
normalizes `modules`/`setup` and checks the start-node invariant,
raising `ValueError` when `start` is not a node name. -/
def mkStory (title author start : String) (nodes : List (String × StoryNode))
    (modules setup : PyVal) : Except PyErr Story :=
  if nodesContains nodes start then
    .ok ⟨title, author, start, nodes, storyModulesInit modules,
      storySetupInit setup⟩
  else
    .error (.valueError ("Start node " ++ start ++ " not found among story nodes."))

/-! ## `macro.py` helpers: builtins table and `error` -/

/-- The keys of `macro.BUILTINS` as registered by the `@mb` decorator (a
trailing underscore in the Python function name is stripped). -/
def BUILTINS_keys : List String :=
  ["set", "add", "eval", "text", "lookup", "context", "if", "select",
   "once", "again"]

/-- `macro.error(message, state)`: prefix the message, wrap it in
`<<...>>`, append it to the `_errors_` list (creating the list if the key
is absent), and return the expansion text together with the updated
state.  Appending to a non-list `_errors_` value raises
`AttributeError`, as `.append` would in the source. -/
def errorFn (message : String) (st : PyState) :
    Except PyErr (String × PyState) :=
  let message := "Error: " ++ message
  let exp := "<<" ++ message ++ ">>"
  match st.lookup "_errors_" with
  | none => .ok (exp, st.set "_errors_" (.list [.str message]))
  | some (.list l) => .ok (exp, st.set "_errors_" (.list (l ++ [.str message])))
  | some _ => .error (.attributeError "object has no attribute append")

/-- A readable rendering of an exception, standing in for the formatted
traceback that `eval_macro` interpolates into its error text; no theorem
inspects this string. -/
def pyErrText : PyErr → String
  | .typeError m => "TypeError: " ++ m
  | .attributeError m => "AttributeError: " ++ m
  | .nameError m => "NameError: " ++ m
  | .valueError m => "ValueError: " ++ m
  | .indexError m => "IndexError: " ++ m
  | .keyError m => "KeyError: " ++ m
  | .parseError m => "ParseError: " ++ m
  | .evalError m => "EvalError: " ++ m
  | .unmatchedError m => "UnmatchedError: " ++ m
  | .runtimeError m => "RuntimeError: " ++ m
  | .recursionError => "RecursionError: maximum recursion depth exceeded"

/-- Python `in` on containers (`x in y`): value membership for lists and
tuples, key membership for dicts, substring test for strings. -/
def pyInB (x y : PyVal) : Except PyErr Bool :=
  match y with
  | .list l => .ok (l.any (pyEqB x ·))
  | .tuple l => .ok (l.any (pyEqB x ·))
  | .dict d => .ok (d.any (fun kv => pyEqB x kv.1))
  | .str s =>
      match x with
      | .str sub => .ok (decide (sub.data <:+: s.data))
      | _ => .error (.typeError "in string requires string")
  | _ => .error (.typeError "argument is not iterable")

/-- Python subscription `y[x]` for dicts and lists (as used by the
`lookup` builtin after a successful `in` test). -/
def pyGetItem (y x : PyVal) : Except PyErr PyVal :=
  match y with
  | .dict d =>
      match d.find? (fun kv => pyEqB x kv.1) with
      | some kv => .ok kv.2
      | none => .error (.keyError "key not found")
  | .list l =>
      match x with
      | .int n =>
          if h : 0 ≤ n ∧ n.toNat < l.length then .ok (l.get ⟨n.toNat, h.2⟩)
          else .error (.indexError "list index out of range")
      | _ => .error (.typeError "list indices must be integers")
  | _ => .error (.typeError "object is not subscriptable")

/-- Python `+=`/`+` on values, as used by the `add` builtin: numeric
addition (booleans count as ints), string and list concatenation. -/
def pyAddB (a b : PyVal) : Except PyErr PyVal :=
  match a, b with
  | .int x, .int y => .ok (.int (x + y))
  | .int x, .bool y => .ok (.int (x + if y then 1 else 0))
  | .bool x, .int y => .ok (.int ((if x then 1 else 0) + y))
  | .bool x, .bool y => .ok (.int ((if x then 1 else 0) + (if y then 1 else 0)))
  | .str x, .str y => .ok (.str (x ++ y))
  | .list x, .list y => .ok (.list (x ++ y))
  | _, _ => .error (.typeError "unsupported operand types for +")

/-- Assignment `d[k] = v` on a Python dict value. -/
def pyDictSet (d : List (PyVal × PyVal)) (k v : PyVal) :
    List (PyVal × PyVal) :=
  match d with
  | [] => [(k, v)]
  | (k₀, v₀) :: rest =>
      if pyEqB k₀ k then (k₀, v) :: rest else (k₀, v₀) :: pyDictSet rest k v

/-- `del state[k]`: drop the binding (the sites that use it always delete
a key they just set). -/
def PyState.eraseKey (st : PyState) (k : String) : PyState :=
  match st with
  | [] => []
  | (k₀, v₀) :: rest =>
      if k₀ = k then rest else (k₀, v₀) :: PyState.eraseKey rest k

/-- A variable name is node-local when it begins with an underscore and
does not end with one (`v.startswith('_') and not v.endswith('_')`). -/
def isLocalName (k : String) : Bool :=
  k.data.head? = some '_' && !(k.data.getLast? = some '_')

/-- The node-local snapshot taken at the top of `eval_text`
(`local_vars`): the bindings of the state whose names are node-local,
deep-copied (the identity here). -/
def localVars (st : PyState) : PyState :=
  st.filter (fun kv => isLocalName kv.1)

/-! ## `macro.parse_units`: the expression parser

The source builds a mutable tree of dicts with `parent` back-references
and performs rotations in place.  Here the currently-edited node is a
zipper focus, and the chain of `parent` references is the stack of
`PFrame`s; a frame is a parent node minus its last argument (the child
the parser is inside of is always the last element of its parent's
`args`). -/

namespace PTree

def state : PTree → String | .mk s _ _ _ _ _ _ => s

def grouped : PTree → Bool | .mk _ g _ _ _ _ _ => g

def op : PTree → Option String | .mk _ _ o _ _ _ _ => o

def arity : PTree → Option Nat | .mk _ _ _ a _ _ _ => a

def args : PTree → List PTree | .mk _ _ _ _ a _ _ => a

def value : PTree → Option PyVal | .mk _ _ _ _ _ v _ => v

def completeKey : PTree → Bool | .mk _ _ _ _ _ _ c => c

def setState (t : PTree) (s : String) : PTree :=
  match t with | .mk _ g o a ar v c => .mk s g o a ar v c

def setOp (t : PTree) (o : Option String) : PTree :=
  match t with | .mk s g _ a ar v c => .mk s g o a ar v c

def setArity (t : PTree) (a : Option Nat) : PTree :=
  match t with | .mk s g o _ ar v c => .mk s g o a ar v c

def setGrouped (t : PTree) (g : Bool) : PTree :=
  match t with | .mk s _ o a ar v c => .mk s g o a ar v c

def setArgs (t : PTree) (ar : List PTree) : PTree :=
  match t with | .mk s g o a _ v c => .mk s g o a ar v c

def appendArg (t : PTree) (x : PTree) : PTree :=
  match t with | .mk s g o a ar v c => .mk s g o a (ar ++ [x]) v c

def setCompleteKey (t : PTree) (c : Bool) : PTree :=
  match t with | .mk s g o a ar v _ => .mk s g o a ar v c

end PTree

/-- A value node, `{"state": "complete", "op": "value", "value": v}`. -/
def valueNode (v : PyVal) : PTree :=
  .mk "complete" false (some "value") none [] (some v) false

/-- An opval node, `{"state": "complete", "op": "opval", "value": op}`. -/
def opvalNode (v : PyVal) : PTree :=
  .mk "complete" false (some "opval") none [] (some v) false

/-- A parent node of the parse zipper, minus its last argument. -/
structure PFrame where
  state : String
  grouped : Bool
  op : Option String
  arity : Option Nat
  argsInit : List PTree
  value : Option PyVal
  completeKey : Bool

/-- Reattach a child as the last argument of a frame. -/
def PFrame.plug (f : PFrame) (child : PTree) : PTree :=
  .mk f.state f.grouped f.op f.arity (f.argsInit ++ [child]) f.value
    f.completeKey

/-- The frame of a node whose existing last argument is being entered
(used by rotation, which descends into `args[-1]`). -/
def PTree.frameDropLast (t : PTree) : PFrame :=
  ⟨t.state, t.grouped, t.op, t.arity, t.args.dropLast, t.value,
    t.completeKey⟩

/-- The frame of a node a new last argument is being pushed under (used
when descending into a freshly appended child). -/
def PTree.frameKeepArgs (t : PTree) : PFrame :=
  ⟨t.state, t.grouped, t.op, t.arity, t.args, t.value, t.completeKey⟩

/-- `macro.escape_upwards(result)`: climb to the closest ancestor that is
not complete; if the root is complete, wrap it in a fresh `need_op`
binop context. -/
def escapeUpwards : PTree → List PFrame → PTree × List PFrame
  | t, f :: rest =>
      if t.state = "complete" then escapeUpwards (f.plug t) rest
      else (t, f :: rest)
  | t, [] =>
      if t.state = "complete" then
        (.mk "need_op" false none none [t] none false, [])
      else (t, [])

/-- `macro.rotate_operators(result, new_op)`: when the last argument of
the focus is an ungrouped operator node of lower precedence than
`new_op`, splice a new `need_val` node in place of that argument's own
last argument and descend into it (returning the new focus and the two
frames the descent pushes); otherwise `none`.  A missing precedence
entry raises `KeyError`, as the source's dict subscript would. -/
def rotateOperators (focus : PTree) (newOp : String) :
    Except PyErr (Option (PTree × PFrame × PFrame)) :=
  match focus.args.getLast? with
  | none => .ok none
  | some target =>
      if !target.grouped && target.op ≠ some "value"
          && target.op ≠ some "opval" then
        match target.op with
        | none => .error (.keyError "None")
        | some top =>
            match OPERATOR_PRECEDENCE.lookup top,
                OPERATOR_PRECEDENCE.lookup newOp with
            | some lpr, some hpr =>
                if hpr > lpr then
                  match target.args.getLast? with
                  | none => .error (.indexError "list index out of range")
                  | some targLast =>
                      let nr : PTree :=
                        .mk "need_val" false (some newOp) (some 2) [targLast]
                          none false
                      .ok (some (nr, target.frameDropLast,
                        focus.frameDropLast))
                else .ok none
            | _, _ => .error (.keyError "missing precedence entry")
      else .ok none

/-- Modelled from the spec: `ops.Operator` is referenced by
`macro.parse_next_op` (and its result is unpacked both as a value with an
`.op` attribute and as an `(kind, symbol)` pair in `parse_units`) but no
definition appears in the sources.  Following §4.2 of the spec, which
treats operators as tokens carrying their symbol, an operator token is
modelled as the tagged value `PyVal.oper symbol`. -/
def OperatorMk (sym : String) : PyVal := .oper sym

/-- The symbol of an operator token (the `.op` attribute). -/
def operSym : PyVal → String
  | .oper s => s
  | _ => ""

/-- `macro.parse_next_op(units)`: the next operator token, or a
`ParseError` naming the offending unit kind; `units[0]` of an empty list
is an `IndexError`. -/
def parseNextOp (units : List LexUnit) :
    Except PyErr (PyVal × List LexUnit) :=
  match units with
  | [] => .error (.indexError "list index out of range")
  | u :: rest =>
      match u with
      | .word _ => .error (.parseError "Unexpected variable (expected operator).")
      | .group _ => .error (.parseError "Unexpected group (expected operator).")
      | .index s =>
          if s = "open" then .ok (OperatorMk "[", rest)
          else .error (.parseError "Unexpected index end (expected operator).")
      | .call _ => .error (.parseError "Unexpected call (expected operator).")
      | .opU s => .ok (OperatorMk s, rest)
      | .intU _ => .error (.parseError "Unexpected constant (expected operator).")
      | .floatU _ => .error (.parseError "Unexpected constant (expected operator).")
      | .strU _ => .error (.parseError "Unexpected constant (expected operator).")

/-- The group-collection loop of `parse_next_val`: scan the units after
the opening group token, tracking nesting, and return the collected
subunits together with the index of the matching close (the break
index); `none` when the scan runs out (`Unmatched '('`). -/
def collectGroup : List LexUnit → Nat → Int → List LexUnit →
    Option (List LexUnit × Nat)
  | [], _, _, _ => none
  | u :: rest, i, level, acc =>
      match u with
      | .group s =>
          if s = "open" then collectGroup rest (i + 1) (level + 1) (acc ++ [u])
          else
            if level - 1 < 0 then some (acc, i)
            else collectGroup rest (i + 1) (level - 1) (acc ++ [u])
      | _ => collectGroup rest (i + 1) level (acc ++ [u])

/-- The index-close scan of the `'['` branch of `parse_units`: scanning
the leftover units from index 1, find the index where the nesting level
drops below zero, or `none` (`Unmatched '['`). -/
def indexCloseScanAux : List LexUnit → Nat → Int → Option Nat
  | [], _, _ => none
  | u :: rest, i, level =>
      if u = .index "open" then indexCloseScanAux rest (i + 1) (level + 1)
      else if u = .index "close" then
        if level - 1 < 0 then some i
        else indexCloseScanAux rest (i + 1) (level - 1)
      else indexCloseScanAux rest (i + 1) level

def indexCloseScan (units : List LexUnit) : Option Nat :=
  indexCloseScanAux (units.drop 1) 1 0

/-- `len(result["args"]) == result["arity"]` (Python `int == None` is
false). -/
def argsLenEqArity (t : PTree) : Bool :=
  match t.arity with
  | some a => t.args.length = a
  | none => false

mutual

/-- `macro.parse_next_val(units)`: the next value from the unit stream —
a literal, a variable lookup, a macro call (whose raw arguments are
produced by `split_macro_args`), or a parenthesized subtree.  `fuel`
bounds the recursion depth (see the module header). -/
def parseNextVal (fuel : Nat) (units : List LexUnit) :
    Except PyErr (PyVal × List LexUnit) :=
  match fuel with
  | 0 => .error .recursionError
  | n + 1 =>
      match units with
      | [] => .error (.indexError "list index out of range")
      | u :: rest =>
          match u with
          | .word s =>
              if s = "True" then .ok (.bool true, rest)
              else if s = "False" then .ok (.bool false, rest)
              else if s = "None" then .ok (.pynone, rest)
              else .ok (.varLookup s, rest)
          | .group _ =>
              match collectGroup rest 1 0 [] with
              | none => .error (.parseError "Unmatched ( group.")
              | some (subunits, i) =>
                  match parseUnits n subunits false with
                  | .error e => .error e
                  | .ok t => .ok (.subtree t, units.drop (i + 1))
          | .index _ => .error (.parseError "Unexpected index (expected value).")
          | .call s =>
              match macroStartMatchAt s.data 0 with
              | none => .error (.parseError "Invalid macro token.")
              | some (_, mEnd, name) =>
                  match splitMacroArgs (s.data.drop mEnd) with
                  | .error e => .error e
                  | .ok args => .ok (.funcCall name args, rest)
          | .opU _ => .error (.parseError "Unexpected operator (expected value).")
          | .intU k => .ok (.int k, rest)
          | .floatU s => .ok (.floatLit s, rest)
          | .strU s => .ok (.str s, rest)

/-- `macro.parse_units(units, ungrouped)`: run the parsing loop, apply
the end-of-input checks, unwrap the root context, and mark the result
grouped (unless `ungrouped` or a bare value).  The `parent` scrub of
`parse_expr` is a no-op in this representation. -/
def parseUnits (fuel : Nat) (units : List LexUnit) (ungrouped : Bool) :
    Except PyErr PTree :=
  match fuel with
  | 0 => .error .recursionError
  | n + 1 =>
      let init : PTree := .mk "blank" false none none [] none false
      match parseLoop n init [] units with
      | .error e => .error e
      | .ok (focus, stack) =>
          let check₁ : Except PyErr Unit :=
            if focus.state = "complete" then .ok ()
            else if focus.state = "need_op" then
              if !stack.isEmpty || focus.op ≠ none || focus.arity ≠ none then
                .error (.parseError "Ended parsing with leftover expectations.")
              else .ok ()
            else
              .error (.parseError
                ("Ended parsing in state " ++ focus.state ++ "."))
          match check₁ with
          | .error e => .error e
          | .ok () =>
              let (t, fr) := escapeUpwards focus stack
              if t.state ≠ "need_op" || !fr.isEmpty || t.op ≠ none
                  || t.arity ≠ none then
                .error (.parseError "Ended parsing with leftover expectations.")
              else
                match t.args.head? with
                | none => .error (.indexError "list index out of range")
                | some res =>
                    if !ungrouped && res.op ≠ some "value"
                        && res.op ≠ some "opval" then
                      .ok (res.setGrouped true)
                    else .ok res

/-- The parsing loop of `macro.parse_units`: one recursive call per loop
iteration, dispatching on the state of the focused node. -/
def parseLoop (fuel : Nat) (focus : PTree) (stack : List PFrame)
    (rest : List LexUnit) : Except PyErr (PTree × List PFrame) :=
  match fuel with
  | 0 => .error .recursionError
  | n + 1 =>
      match rest with
      | [] => .ok (focus, stack)
      | _ =>
          if focus.state = "complete" then
            let (f', s') := escapeUpwards focus stack
            parseLoop n f' s' rest
          else if focus.state = "blank" then
            match parseNextVal n rest with
            | .ok (val, rest') =>
                parseLoop n
                  ((focus.appendArg (valueNode val)).setState "need_op")
                  stack rest'
            | .error (.parseError e) =>
                match parseNextOp rest with
                | .error e' => .error e'
                | .ok (opv, rest') =>
                    -- the Operator token unpacks as `(otyp, op)`
                    let sym := operSym opv
                    if sym = "+" || sym = "-" || sym = "not" then
                      parseLoop n
                        (((focus.setArity (some 1)).setOp (some sym)).setState
                          "need_val")
                        stack rest'
                    else .error (.parseError e)
            | .error e => .error e
          else if focus.state = "need_val" then
            let backup := rest
            match parseNextVal n rest with
            | .ok (val, rest') =>
                let focus := focus.appendArg (valueNode val)
                let focus :=
                  if argsLenEqArity focus then focus.setState "complete"
                  else focus
                parseLoop n focus stack rest'
            | .error (.parseError e) =>
                match parseNextOp rest with
                | .error e' => .error e'
                | .ok (opv, rest') =>
                    let sym := operSym opv
                    if sym = "+" || sym = "-" || sym = "not" then
                      let nr : PTree :=
                        .mk "need_val" false (some sym) (some 1) [] none false
                      parseLoop n nr (focus.frameKeepArgs :: stack) rest'
                    else if focus.op = some "." && focus.arity = some 3
                        && focus.args.length = 2 then
                      -- revise the arity estimate, set the (unread)
                      -- `complete` key, and reset the unit stream
                      parseLoop n
                        ((focus.setArity (some 2)).setCompleteKey true)
                        stack backup
                    else .error (.parseError e)
            | .error e => .error e
          else if focus.state = "need_op" then
            match parseNextOp rest with
            | .error e => .error e
            | .ok (opv, rest') =>
                let sym := operSym opv
                if sym = "not" then
                  .error (.parseError "Expected binary operator but got not.")
                else if sym = "[" then
                  match rotateOperators focus sym with
                  | .error e => .error e
                  | .ok ropt =>
                      let (focus, stack) :=
                        match ropt with
                        | some (nr, fT, fF) => (nr, fT :: fF :: stack)
                        | none => (focus, stack)
                      -- the source scans (and later slices) the leftover
                      -- units starting from index 1, one past the unit
                      -- that followed the consumed `[`
                      match indexCloseScan rest' with
                      | none => .error (.parseError "Unmatched [ index.")
                      | some iIdx =>
                          let subunits := (rest'.drop 1).take (iIdx - 1)
                          match parseUnits n subunits false with
                          | .error e => .error e
                          | .ok sub =>
                              let focus :=
                                ((((focus.setArity (some 2)).setOp
                                  (some "[")).setState
                                  "complete").appendArg sub)
                              parseLoop n focus stack (rest'.drop (iIdx + 1))
                else
                  match rotateOperators focus sym with
                  | .error e => .error e
                  | .ok ropt =>
                      let (focus, stack) :=
                        match ropt with
                        | some (nr, fT, fF) => (nr, fT :: fF :: stack)
                        | none =>
                            ((((focus.setArity (some 2)).setOp
                              (some sym)).setState "need_val"), stack)
                      let focus :=
                        if sym = "%" || sym = "%%" || sym = "." then
                          focus.setArity (some 3)
                        else if sym = "|" then
                          (focus.setArity (some 3)).setState "need_opval"
                        else if sym = "!" then focus.setState "need_call"
                        else focus
                      parseLoop n focus stack rest'
          else if focus.state = "need_opval" then
            match parseNextOp rest with
            | .error e => .error e
            | .ok (opv, rest') =>
                parseLoop n
                  ((focus.appendArg (opvalNode opv)).setState "need_val")
                  stack rest'
          else if focus.state = "need_call" then
            match parseNextVal n rest with
            | .error e => .error e
            | .ok (val, rest') =>
                match val with
                | .funcCall _ _ =>
                    let focus := focus.appendArg (valueNode val)
                    let focus :=
                      if argsLenEqArity focus then focus.setState "complete"
                      else focus.setState "need_val"
                    parseLoop n focus stack rest'
                | _ =>
                    .error (.parseError "Did not find required macro call.")
          else .error (.runtimeError "invalid parser state (unreachable)")

end

/-- `macro.parse_expr(expr)`: lex, parse, scrub parents (a no-op here;
the representation carries no parent references). -/
def parseExpr (expr : String) : Except PyErr PTree :=
  match lexExpr expr with
  | .error e => .error e
  | .ok units => parseUnits ((units.length + 2) * (2 * units.length + 8))
      units false

/-! ## `macro.py`: the evaluator -/

/-- A state embedded as a Python dict value (needed by the `lookup`
builtin, which returns the pair produced by `error` as a value). -/
def pyStateVal (st : PyState) : PyVal :=
  .dict (st.map (fun kv => (.str kv.1, kv.2)))

/-- `del state[k]`, raising `KeyError` when the key is absent. -/
def pyStateDel (st : PyState) (k : String) : Except PyErr PyState :=
  if st.contains k then .ok (st.eraseKey k) else .error (.keyError k)

/-- The value several builtins pass into the `context` parameter of
`eval_text`: the module-finder argument itself (a function object or
`None`), because the call `eval_text(arg, story, state, mf)` passes `mf`
positionally where `context` is expected. -/
def ctxFromMf (mf : Option ModuleFinder) : PyVal :=
  match mf with
  | some _ => .pyfunc
  | none => .pynone

/-- The text-scanning loop of `macro.eval_text`: starting at position
`i`, find the next `MACRO_START` sigil; with no match, the rest of the
text is literal.  An unterminated sigil (`UnmatchedError` from
`matching_brace`) logs a warning to stderr and resumes one past the end
of the sigil match, appending nothing.  Otherwise the literal text before
the sigil is appended, the call body is split into raw arguments, the
macro is evaluated through `evalM`, and its string form is appended.
`gas` bounds the iterations; the position strictly increases, so
`text.length + 2` iterations always suffice. -/
def scanText (evalM : String → List String → PyState →
    Except PyErr (PyVal × PyState)) :
    Nat → List Char → Nat → List String → PyState →
    Except PyErr (List String × PyState)
  | 0, _, _, _, _ => .error (.runtimeError "scan gas exhausted (unreachable)")
  | g + 1, text, i, bits, st =>
      if i ≥ text.length then .ok (bits, st)
      else
        match macroStartSearch text i with
        | none => .ok (bits ++ [String.mk (text.drop i)], st)
        | some (start, mEnd, name) =>
            match matchingBrace text start '(' ')' with
            | .error (.unmatchedError _) =>
                -- warning printed to stderr; `i = ms.end() + 1; continue`
                scanText evalM g text (mEnd + 1) bits st
            | .error e => .error e
            | .ok endIdx =>
                let bits := bits ++ [String.mk (slice text i start)]
                match splitMacroArgs (slice text mEnd endIdx) with
                | .error e => .error e
                | .ok args =>
                    match evalM name args st with
                    | .error e => .error e
                    | .ok (mv, st') =>
                        scanText evalM g text (endIdx + 1)
                          (bits ++ [pyStr mv]) st'

mutual

/-- `macro.eval_tree(tree, story, state, module_finder)`.  Value and
opval leaves return macro-call results, variable lookups (an unknown
variable degrades through `error`), or the raw constant.  The `or`/`and`
branches evaluate their left operand and then call `ops.is_true(val)`
with a single argument, though `is_true(typ, val)` requires two — a
`TypeError` on every execution.  The list branch of the map operator
reads the name `v` before it is bound (`NameError`); the dict branch is
translated in full.  All remaining operators evaluate their arguments
and dispatch through `ops.op_result`, which always raises (see
`opResult`). -/
def evalTree (fuel : Nat) (tree : PTree) (story : Story) (st : PyState)
    (mf : Option ModuleFinder) : Except PyErr (PyVal × PyState) :=
  match fuel with
  | 0 => .error .recursionError
  | n + 1 =>
      if tree.op = some "value" || tree.op = some "opval" then
        match tree.value with
        | none => .error (.keyError "value")
        | some rv =>
            match rv with
            | .funcCall name args => evalMacroFn n name args story st mf
            | .varLookup name =>
                match st.lookup name with
                | some v => .ok (v, st)
                | none =>
                    match errorFn ("Unknown variable " ++ name ++ ".") st with
                    | .error e => .error e
                    | .ok (exp, st') => .ok (.str exp, st')
            | _ => .ok (rv, st)
      else if tree.op = some "or" then
        match tree.args.head? with
        | none => .error (.indexError "list index out of range")
        | some a₀ =>
            match evalTree n a₀ story st mf with
            | .error e => .error e
            | .ok (_, _) =>
                -- `ops.is_true(val)`: one argument to a two-parameter
                -- function
                .error (.typeError
                  "is_true() missing 1 required positional argument: val")
      else if tree.op = some "and" then
        match tree.args.head? with
        | none => .error (.indexError "list index out of range")
        | some a₀ =>
            match evalTree n a₀ story st mf with
            | .error e => .error e
            | .ok (_, _) =>
                .error (.typeError
                  "is_true() missing 1 required positional argument: val")
      else if tree.op = some "!" then
        match tree.args.head? with
        | none => .error (.indexError "list index out of range")
        | some a₀ =>
            match evalTree n a₀ story st mf with
            | .error e => .error e
            | .ok (val, st) =>
                match val with
                | .list _ =>
                    -- `mstate['@'] = v` before `v` is bound
                    .error (.nameError "name v is not defined")
                | .dict d =>
                    match tree.args.get? 1 with
                    | none => .error (.indexError "list index out of range")
                    | some body =>
                        let mstate := st.set "@" val
                        match mapDictLoop n body story mf d mstate [] with
                        | .error e => .error e
                        | .ok (results, mstate) =>
                            match pyStateDel mstate "#" with
                            | .error e => .error e
                            | .ok m₁ =>
                                match pyStateDel m₁ "?" with
                                | .error e => .error e
                                | .ok m₂ =>
                                    match pyStateDel m₂ "@" with
                                    | .error e => .error e
                                    | .ok m₃ =>
                                        .ok (.dict results, st.update m₃)
                | _ =>
                    .error (.evalError ("Cannot map over value: " ++ pyStr val))
      else
        match evalTreeList n tree.args story st mf with
        | .error e => .error e
        | .ok (argValues, st) =>
            let opv : PyVal :=
              match tree.op with
              | some s => .str s
              | none => .pynone
            opResult opv st argValues

/-- The per-entry loop of the dict branch of the map operator. -/
def mapDictLoop (fuel : Nat) (body : PTree) (story : Story)
    (mf : Option ModuleFinder) (entries : List (PyVal × PyVal))
    (mstate : PyState) (results : List (PyVal × PyVal)) :
    Except PyErr (List (PyVal × PyVal) × PyState) :=
  match fuel with
  | 0 => .error .recursionError
  | n + 1 =>
      match entries with
      | [] => .ok (results, mstate)
      | (k, vv) :: rest =>
          let mstate := (mstate.set "#" k).set "?" vv
          match evalTree n body story mstate mf with
          | .error e => .error e
          | .ok (rv, mstate) =>
              mapDictLoop n body story mf rest mstate (pyDictSet results k rv)

/-- Left-to-right evaluation of the argument subtrees of an operator
node (the `for a in tree["args"]` loop of `eval_tree`). -/
def evalTreeList (fuel : Nat) (trees : List PTree) (story : Story)
    (st : PyState) (mf : Option ModuleFinder) :
    Except PyErr (List PyVal × PyState) :=
  match fuel with
  | 0 => .error .recursionError
  | n + 1 =>
      match trees with
      | [] => .ok ([], st)
      | a :: rest =>
          match evalTree n a story st mf with
          | .error e => .error e
          | .ok (av, st) =>
              match evalTreeList n rest story st mf with
              | .error e => .error e
              | .ok (avs, st) => .ok (av :: avs, st)

/-- `macro.eval_expr(expr, story, state, module_finder)`: deep-copy the
state, parse, evaluate. -/
def evalExpr (fuel : Nat) (expr : String) (story : Story) (st : PyState)
    (mf : Option ModuleFinder) : Except PyErr (PyVal × PyState) :=
  match fuel with
  | 0 => .error .recursionError
  | n + 1 =>
      match parseExpr expr with
      | .error e => .error e
      | .ok pt => evalTree n pt story st mf

/-- `macro.eval_macro(name, args, story, state, module_finder)`:
resolution order is story node, module reference (exactly one dot),
builtin, and otherwise an `Unrecognized macro` error; only the builtin
branch catches exceptions, converting them to inline error text. -/
def evalMacroFn (fuel : Nat) (name : String) (args : List String)
    (story : Story) (st : PyState) (mf : Option ModuleFinder) :
    Except PyErr (PyVal × PyState) :=
  match fuel with
  | 0 => .error .recursionError
  | n + 1 =>
      match nodesLookup story.nodes name with
      | some node =>
          match evalText n node.content story st (.list (args.map .str)) mf with
          | .error e => .error e
          | .ok (s, st') => .ok (.str s, st')
      | none =>
          if countChar name '.' = 1 then
            let parts := name.splitOn "."
            let moduleName := parts.headD ""
            let innerName := parts.getD 1 ""
            match pyInB (.str moduleName) story.modules with
            | .error e => .error e
            | .ok included =>
                if !included then
                  match errorFn ("Module '" ++ moduleName ++ "' for macro '"
                      ++ name ++ "' is not included by story '"
                      ++ story.title ++ "'.") st with
                  | .error e => .error e
                  | .ok (exp, st') => .ok (.str exp, st')
                else
                  match mf with
                  | none =>
                      match errorFn ("Attempt to use module '" ++ moduleName
                          ++ "' without a module finder.") st with
                      | .error e => .error e
                      | .ok (exp, st') => .ok (.str exp, st')
                  | some finder =>
                      match finder moduleName with
                      | none =>
                          match errorFn ("Module '" ++ moduleName
                              ++ "' not found.") st with
                          | .error e => .error e
                          | .ok (exp, st') => .ok (.str exp, st')
                      | some module =>
                          match nodesLookup module.nodes innerName with
                          | none =>
                              match errorFn ("Module '" ++ moduleName
                                  ++ "' doesn't define macro '" ++ innerName
                                  ++ "'.") st with
                              | .error e => .error e
                              | .ok (exp, st') => .ok (.str exp, st')
                          | some node =>
                              match evalText n node.content story st
                                  (.list (args.map .str)) mf with
                              | .error e => .error e
                              | .ok (s, st') => .ok (.str s, st')
          else if BUILTINS_keys.contains name then
            match callBuiltin n name args story st mf with
            | .ok r => .ok r
            | .error e =>
                match errorFn ("Error calling built-in '" ++ name
                    ++ "' with arguments:\n"
                    ++ String.intercalate "\n" args
                    ++ "\nDetails:\n" ++ pyErrText e) st with
                | .error e' => .error e'
                | .ok (exp, st') => .ok (.str exp, st')
          else
            match errorFn ("Unrecognized macro '" ++ name ++ "'.") st with
            | .error e => .error e
            | .ok (exp, st') => .ok (.str exp, st')

/-- `macro.eval_text(text, story, state, context, module_finder)`:
deep-copy the state, snapshot the node-local variables, set `_context`
to the supplied context (`context or []`), scan the text for macro
calls, and finally restore the snapshot with `state.update(local_vars)`
before returning the joined bits. -/
def evalText (fuel : Nat) (text : String) (story : Story) (st : PyState)
    (ctx : PyVal) (mf : Option ModuleFinder) :
    Except PyErr (String × PyState) :=
  match fuel with
  | 0 => .error .recursionError
  | n + 1 =>
      let ctx := if pyTruthy ctx then ctx else .list []
      let locals := localVars st
      let st := st.set "_context" ctx
      match scanText (fun nm as s => evalMacroFn n nm as story s mf)
          (text.data.length + 2) text.data 0 [] st with
      | .error e => .error e
      | .ok (bits, st₂) => .ok (String.join bits, st₂.update locals)

/-- Builtin dispatch (`BUILTINS[name](module_finder, story, state,
*args)`), including the arity errors Python raises for a mismatched
argument count; exceptions are caught by the caller (`evalMacroFn`). -/
def callBuiltin (fuel : Nat) (name : String) (args : List String)
    (story : Story) (st : PyState) (mf : Option ModuleFinder) :
    Except PyErr (PyVal × PyState) :=
  match fuel with
  | 0 => .error .recursionError
  | n + 1 =>
      if name = "set" then
        match args with
        | [var, expr] =>
            match evalExpr n expr story st mf with
            | .error e => .error e
            | .ok (val, st') => .ok (val, st'.set (pyStrip var) val)
        | _ => .error (.typeError "set_() argument count mismatch")
      else if name = "add" then
        match args with
        | [var, expr] =>
            match evalExpr n expr story st mf with
            | .error e => .error e
            | .ok (val, st') =>
                let key := pyStrip var
                match st'.lookup key with
                | none => .error (.keyError key)
                | some old =>
                    match pyAddB old val with
                    | .error e => .error e
                    | .ok added => .ok (val, st'.set key added)
        | _ => .error (.typeError "add() argument count mismatch")
      else if name = "eval" then
        if args.length = 1 then
          -- `eval_expr(arg, ...)` with no name `arg` in scope
          .error (.nameError "name arg is not defined")
        else
          match builtinEvalLoop n args story st mf [] with
          | .error e => .error e
          | .ok (vals, st') => .ok (.list vals, st')
      else if name = "text" then
        if args.length = 1 then
          -- `eval_text(arg, ...)` with no name `arg` in scope
          .error (.nameError "name arg is not defined")
        else
          match builtinTextLoop n args story st mf [] with
          | .error e => .error e
          | .ok (strs, st') => .ok (.str (String.join strs), st')
      else if name = "lookup" then
        match args with
        | [objArg, keyArg] =>
            match evalExpr n objArg story st mf with
            | .error e => .error e
            | .ok (obj, st₁) =>
                match evalExpr n keyArg story st₁ mf with
                | .error e => .error e
                | .ok (key, st₂) =>
                    match pyInB key obj with
                    | .error e => .error e
                    | .ok true =>
                        match pyGetItem obj key with
                        | .error e => .error e
                        | .ok v => .ok (v, st₂)
                    | .ok false =>
                        -- `return (error(...), state)`: the pair
                        -- produced by `error` becomes the value
                        match errorFn ("Lookup failed to find '" ++ pyStr key
                            ++ "' in '" ++ pyStr obj ++ "'.") st₂ with
                        | .error e => .error e
                        | .ok (exp, stErr) =>
                            -- `return (error(...), state)`: the dict is
                            -- aliased, so the threaded state is the one
                            -- `error` mutated
                            .ok (.tuple [.str exp, pyStateVal stErr], stErr)
        | _ => .error (.typeError "lookup() argument count mismatch")
      else if name = "context" then
        match args with
        | [nArg] =>
            match evalExpr n nArg story st mf with
            | .error e => .error e
            | .ok (nv, st') =>
                -- `if n >= 1 and n <= len(state["_context"])`: `n >= 1`
                -- is evaluated first (TypeError for a non-number), and
                -- `state["_context"]` is read only when it holds
                let kOpt : Option Int :=
                  match nv with
                  | .int k => some k
                  | .bool b => some (if b then 1 else 0)
                  | _ => none
                match kOpt with
                | none => .error (.typeError "unorderable types")
                | some k =>
                    if 1 ≤ k then
                      match st'.lookup "_context" with
                      | none => .error (.keyError "_context")
                      | some ctxv =>
                          match pyLen ctxv with
                          | .error e => .error e
                          | .ok len =>
                              if k ≤ (len : Int) then
                                match pyGetItem ctxv (.int (k - 1)) with
                                | .error e => .error e
                                | .ok v => .ok (v, st')
                              else .ok (.pynone, st')
                    else .ok (.pynone, st')
        | _ => .error (.typeError "context() argument count mismatch")
      else if name = "if" then
        condBase n args story st mf false
      else if name = "select" then
        condBase n args story st mf true
      else if name = "once" then
        match args with
        | [arg] =>
            match st.lookup "_first" with
            | none => .error (.keyError "_first")
            | some v =>
                if pyTruthy v then
                  match evalText n arg story st (ctxFromMf mf) none with
                  | .error e => .error e
                  | .ok (s, st') => .ok (.str s, st')
                else .ok (.str "", st)
        | _ => .error (.typeError "once() argument count mismatch")
      else if name = "again" then
        match args with
        | [arg] =>
            match st.lookup "_first" with
            | none => .error (.keyError "_first")
            | some v =>
                if pyTruthy v then .ok (.str "", st)
                else
                  match evalText n arg story st (ctxFromMf mf) none with
                  | .error e => .error e
                  | .ok (s, st') => .ok (.str s, st')
        | _ => .error (.typeError "again() argument count mismatch")
      else .error (.keyError name)

/-- The per-argument loop of the `eval` builtin. -/
def builtinEvalLoop (fuel : Nat) (args : List String) (story : Story)
    (st : PyState) (mf : Option ModuleFinder) (acc : List PyVal) :
    Except PyErr (List PyVal × PyState) :=
  match fuel with
  | 0 => .error .recursionError
  | n + 1 =>
      match args with
      | [] => .ok (acc, st)
      | a :: rest =>
          match evalExpr n a story st mf with
          | .error e => .error e
          | .ok (v, st') => builtinEvalLoop n rest story st' mf (acc ++ [v])

/-- The per-argument loop of the `text` builtin (note the context bug:
the module finder is passed as the context). -/
def builtinTextLoop (fuel : Nat) (args : List String) (story : Story)
    (st : PyState) (mf : Option ModuleFinder) (acc : List String) :
    Except PyErr (List String × PyState) :=
  match fuel with
  | 0 => .error .recursionError
  | n + 1 =>
      match args with
      | [] => .ok (acc, st)
      | a :: rest =>
          match evalText n a story st (ctxFromMf mf) none with
          | .error e => .error e
          | .ok (s, st') => builtinTextLoop n rest story st' mf (acc ++ [s])

/-- `macro.cond_base(mf, story, state, *args, as_text)`: pair the odd
arguments (conditions) with the even arguments (results), with a
leftover odd argument as the implicit else; evaluate conditions left to
right and stop at the first truthy one. -/
def condBase (fuel : Nat) (args : List String) (story : Story)
    (st : PyState) (mf : Option ModuleFinder) (asText : Bool) :
    Except PyErr (PyVal × PyState) :=
  match fuel with
  | 0 => .error .recursionError
  | n + 1 =>
      let idx := List.range args.length
      let odd := (idx.filter (· % 2 = 0)).filterMap (args.get? ·)
      let even := (idx.filter (· % 2 = 1)).filterMap (args.get? ·)
      let el : Option String :=
        if odd.length > even.length then odd.getLast? else none
      let odd := if odd.length > even.length then odd.dropLast else odd
      condLoop n (odd.zip even) el story st mf asText

/-- The condition loop of `cond_base`. -/
def condLoop (fuel : Nat) (pairs : List (String × String))
    (el : Option String) (story : Story) (st : PyState)
    (mf : Option ModuleFinder) (asText : Bool) :
    Except PyErr (PyVal × PyState) :=
  match fuel with
  | 0 => .error .recursionError
  | n + 1 =>
      match pairs with
      | [] =>
          match el with
          | none => .ok (.pynone, st)
          | some e =>
              if asText then
                match evalText n e story st (ctxFromMf mf) none with
                | .error er => .error er
                | .ok (s, st') => .ok (.str s, st')
              else evalExpr n e story st mf
      | (cond, res) :: rest =>
          match evalExpr n cond story st mf with
          | .error e => .error e
          | .ok (v, st') =>
              if pyTruthy v then
                if asText then
                  match evalText n res story st' (ctxFromMf mf) none with
                  | .error er => .error er
                  | .ok (s, st'') => .ok (.str s, st'')
                else evalExpr n res story st' mf
              else condLoop n rest el story st' mf asText

end

end Firelight



namespace Firelight

/-- A minimal story with a single empty node, used as the concrete story
of several theorems (the `Story` invariant `start ∈ nodes` holds). -/
def story₀ : Story :=
  ⟨"Test Story", "Anonymous", "s", [("s", ⟨"s", "", []⟩)], .list [], .dict []⟩

/-- A story whose start node expands itself: `(loop~)`. -/
def loopStory : Story :=
  ⟨"Loop Story", "Anonymous", "loop", [("loop", ⟨"loop", "(loop~)", []⟩)],
    .list [], .dict []⟩

/-! ## `parse.py`: the story markup parser -/

/-- Left-to-right non-overlapping replacement (`str.replace`). -/
def replaceAll (pat repl : List Char) : Nat → List Char → List Char
  | 0, cs => cs
  | _, [] => []
  | gas + 1, c :: cs =>
      if pat ≠ [] && pat.isPrefixOf (c :: cs) then
        repl ++ replaceAll pat repl gas ((c :: cs).drop pat.length)
      else
        c :: replaceAll pat repl gas cs

/-- `parse.normalize_newlines(src)`: the three successive `replace`
calls of the source. -/
def normalizeNewlines (src : List Char) : List Char :=
  let s₁ := replaceAll ['\n', '\r'] ['\n'] (src.length + 1) src
  let s₂ := replaceAll ['\r', '\n'] ['\n'] (s₁.length + 1) s₁
  replaceAll ['\r'] ['\n'] (s₂.length + 1) s₂

/-- Cut a single line at its first `` `` `` comment marker
(the regex ```` ``.*$ ````). -/
def cutComment (line : List Char) : List Char :=
  match line with
  | [] => []
  | c :: rest =>
      if c = backtick && rest.head? = some backtick then []
      else c :: cutComment rest

/-- `parse.remove_comments(src)`. -/
def removeComments (src : List Char) : List Char :=
  (String.intercalate "\n"
    ((splitOnChar '\n' src).map
      (fun l => String.mk (cutComment l)))).data

/-- Step 1 of `parse.reflow`: `re.sub("^\s*([^\n])", r"\1", src)` —
remove the leading whitespace run when a non-newline character can
follow it (with the regex backtracking into the run when the string is
all whitespace). -/
def reflowStep1 (src : List Char) : List Char :=
  let k := (src.takeWhile isPySpace).length
  if k < src.length then src.drop k
  else
    -- all whitespace: match the longest prefix whose following
    -- character is a non-newline (whitespace) character
    match (src.take k).findIdx? (· ≠ '\n') with
    | _ =>
        let rec lastNonNl : List Char → Option Nat → Nat → Option Nat
          | [], acc, _ => acc
          | c :: rest, acc, i =>
              lastNonNl rest (if c ≠ '\n' then some i else acc) (i + 1)
        match lastNonNl src none 0 with
        | some j => src.drop j
        | none => src

/-- Step 2 of `parse.reflow`: `re.sub("([^\n])\s*$", r"\1", src)` —
truncate everything after the last non-whitespace character (no match
when the string is entirely whitespace or the candidate character is a
newline). -/
def reflowStep2 (src : List Char) : List Char :=
  let rec lastNonWs : List Char → Option Nat → Nat → Option Nat
    | [], acc, _ => acc
    | c :: rest, acc, i =>
        lastNonWs rest (if !isPySpace c then some i else acc) (i + 1)
  match lastNonWs src none 0 with
  | some t => if src.getD t ' ' ≠ '\n' then src.take (t + 1) else src
  | none =>
      -- all whitespace: the leftmost non-newline whitespace character
      -- with only whitespace after it starts the match
      match src.findIdx? (· ≠ '\n') with
      | some p => src.take (p + 1)
      | none => src

/-- Step 3 of `parse.reflow`:
`re.sub("([^\n])[ \t]*\n[ \t]*([^\n])", r"\1 \2", src)` — join a pair of
lines separated by a single newline with a space, scanning
left-to-right without overlap (so of three consecutive short lines only
the first two are joined in one pass, exactly as `re.sub` does). -/
def reflowStep3 : Nat → List Char → List Char
  | 0, cs => cs
  | _, [] => []
  | gas + 1, c :: cs =>
      if c ≠ '\n' then
        let run₁ := cs.takeWhile (fun x => x = ' ' || x = '\t')
        let afterRun₁ := cs.drop run₁.length
        match afterRun₁ with
        | '\n' :: cs₂ =>
            let run₂ := cs₂.takeWhile (fun x => x = ' ' || x = '\t')
            let afterRun₂ := cs₂.drop run₂.length
            match afterRun₂ with
            | d :: cs₃ =>
                if d ≠ '\n' then c :: ' ' :: d :: reflowStep3 gas cs₃
                else c :: reflowStep3 gas cs
            | [] => c :: reflowStep3 gas cs
        | _ => c :: reflowStep3 gas cs
      else c :: reflowStep3 gas cs

/-- Step 4 of `parse.reflow`: `re.sub("\n\s*", "\n", src)` — drop the
whitespace run after each newline (the run may include further
newlines). -/
def reflowStep4 : Nat → List Char → List Char
  | 0, cs => cs
  | _, [] => []
  | gas + 1, c :: cs =>
      if c = '\n' then
        '\n' :: reflowStep4 gas (cs.drop (cs.takeWhile isPySpace).length)
      else c :: reflowStep4 gas cs

/-- `parse.reflow(src)`. -/
def reflow (src : List Char) : List Char :=
  let s₁ := reflowStep1 src
  let s₂ := reflowStep2 s₁
  let s₃ := reflowStep3 (s₂.length + 1) s₂
  reflowStep4 (s₃.length + 1) s₃

/-- The character class `[A-Za-z0-9_.-]` of `META_KEY` and
`NODE_START`. -/
def isMetaKeyChar (c : Char) : Bool :=
  c.isAlpha || c.isDigit || c = '_' || c = '.' || c = '-'

/-- `META_KEY.search(line)` on a single metadata line: `% `, a key of
`[A-Za-z0-9_.-]+`, and a colon; returns the key and `match.end()`. -/
def metaKeyMatch (line : List Char) : Option (String × Nat) :=
  match line with
  | '%' :: ' ' :: rest =>
      let run := rest.takeWhile isMetaKeyChar
      if run.length ≥ 1 && (rest.drop run.length).head? = some ':' then
        some (String.mk run, 2 + run.length + 1)
      else none
  | _ => none

/-- Replace-or-append on a string-keyed association list (metadata dict
assignment). -/
def metaSet (m : List (String × String)) (k v : String) :
    List (String × String) :=
  match m with
  | [] => [(k, v)]
  | (k₀, v₀) :: rest =>
      if k₀ = k then (k₀, v) :: rest else (k₀, v₀) :: metaSet rest k v

/-- In-place append to a metadata value (`metadata[key] += ...`). -/
def metaAppend (m : List (String × String)) (k v : String) :
    List (String × String) :=
  match m with
  | [] => []
  | (k₀, v₀) :: rest =>
      if k₀ = k then (k₀, v₀ ++ v) :: rest else (k₀, v₀) :: metaAppend rest k v

/-- Metadata lookup with the default-populated keys. -/
def metaGet (m : List (String × String)) (k : String) : String :=
  match m with
  | [] => ""
  | (k₀, v₀) :: rest => if k₀ = k then v₀ else metaGet rest k

/-- The line loop of `parse.parse_metadata`: returns the accumulated
metadata and the break index (the index of the first non-blank,
non-`%` line; when the loop finishes without a break, Python leaves the
loop variable at the last index). -/
def metaLoop : List String → Nat → Option String →
    List (String × String) → List (String × String) × Nat
  | [], i, _, acc => (acc, i - 1)
  | line :: rest, i, cur, acc =>
      if pyStrip line = "" then metaLoop rest (i + 1) cur acc
      else if line.data.head? = some '%' then
        match metaKeyMatch line.data with
        | some (key, endi) =>
            metaLoop rest (i + 1) (some key)
              (metaSet acc key (pyStrip (String.mk (line.data.drop endi))))
        | none =>
            match cur with
            | some k =>
                metaLoop rest (i + 1) cur
                  (metaAppend acc k
                    (" " ++ pyStrip (String.mk (line.data.drop 1))))
            | none => metaLoop rest (i + 1) cur acc
      else (acc, i)

/-! A small JSON reader standing in for `json.loads` on the `state` and
`modules` metadata fields.  It covers objects, arrays, strings with the
common escapes, integers, and the three literals — every story source
appearing in this development only needs `{}` and `[]`. -/

def jsonSkipWs (cs : List Char) : List Char := cs.dropWhile isPySpace

mutual

def jsonValue (fuel : Nat) (cs : List Char) :
    Except PyErr (PyVal × List Char) :=
  match fuel with
  | 0 => .error .recursionError
  | n + 1 =>
      match jsonSkipWs cs with
      | [] => .error (.valueError "json: unexpected end of input")
      | c :: rest =>
          if c = Char.ofNat 123 then jsonObject n (jsonSkipWs rest) []
          else if c = '[' then jsonArray n (jsonSkipWs rest) []
          else if c = '"' then
            match stringLiteralAux '"' rest 0 false [] with
            | .error _ => .error (.valueError "json: unterminated string")
            | .ok (_, s) => .ok (.str s, rest.drop (s.length + 1))
          else if c = 't' && rest.take 3 = ['r', 'u', 'e'] then
            .ok (.bool true, rest.drop 3)
          else if c = 'f' && rest.take 4 = ['a', 'l', 's', 'e'] then
            .ok (.bool false, rest.drop 4)
          else if c = 'n' && rest.take 3 = ['u', 'l', 'l'] then
            .ok (.pynone, rest.drop 3)
          else if c = '-' || c.isDigit then
            let (sign, ds) :=
              if c = '-' then ((-1 : Int), rest.takeWhile Char.isDigit)
              else (1, (c :: rest).takeWhile Char.isDigit)
            if ds.isEmpty then .error (.valueError "json: bad number")
            else
              let v := ds.foldl
                (fun a d => a * 10 + ((d.toNat - '0'.toNat : Nat) : Int)) 0
              let consumed := if c = '-' then ds.length + 1 else ds.length
              .ok (.int (sign * v), (c :: rest).drop consumed)
          else .error (.valueError "json: unexpected character")

def jsonObject (fuel : Nat) (cs : List Char) (acc : List (PyVal × PyVal)) :
    Except PyErr (PyVal × List Char) :=
  match fuel with
  | 0 => .error .recursionError
  | n + 1 =>
      match jsonSkipWs cs with
      | [] => .error (.valueError "json: unterminated object")
      | c :: rest =>
          if c = Char.ofNat 125 then .ok (.dict acc, rest)
          else if acc.isEmpty then jsonMember n (c :: rest) acc
          else if c = ',' then jsonMember n (jsonSkipWs rest) acc
          else .error (.valueError "json: expected comma or close")

def jsonMember (fuel : Nat) (cs : List Char) (acc : List (PyVal × PyVal)) :
    Except PyErr (PyVal × List Char) :=
  match fuel with
  | 0 => .error .recursionError
  | n + 1 =>
      match cs with
      | '"' :: rest =>
          match stringLiteralAux '"' rest 0 false [] with
          | .error _ => .error (.valueError "json: unterminated string")
          | .ok (_, k) =>
              match jsonSkipWs (rest.drop (k.length + 1)) with
              | ':' :: afterColon =>
                  match jsonValue n afterColon with
                  | .error e => .error e
                  | .ok (v, cs') =>
                      -- a repeated key keeps its position with the later
                      -- value, as a Python dict does
                      jsonObject n cs' (pyDictSet acc (.str k) v)
              | _ => .error (.valueError "json: expected colon")
      | _ => .error (.valueError "json: expected key")

def jsonArray (fuel : Nat) (cs : List Char) (acc : List PyVal) :
    Except PyErr (PyVal × List Char) :=
  match fuel with
  | 0 => .error .recursionError
  | n + 1 =>
      match jsonSkipWs cs with
      | [] => .error (.valueError "json: unterminated array")
      | c :: rest =>
          if c = ']' then .ok (.list acc, rest)
          else if acc.isEmpty then
            match jsonValue n (c :: rest) with
            | .error e => .error e
            | .ok (v, cs') => jsonArray n cs' (acc ++ [v])
          else if c = ',' then
            match jsonValue n rest with
            | .error e => .error e
            | .ok (v, cs') => jsonArray n cs' (acc ++ [v])
          else .error (.valueError "json: expected comma or close")

end

/-- `json.loads(s)` on the supported subset. -/
def jsonLoads (s : String) : Except PyErr PyVal :=
  match jsonValue (s.length + 2) s.data with
  | .error e => .error e
  | .ok (v, rest) =>
      if (jsonSkipWs rest).isEmpty then .ok v
      else .error (.valueError "json: trailing data")

/-- `parse.parse_metadata(src)`: default fields, the line loop, then
`json.loads` applied to the `state` and `modules` fields.  Returns the
string fields, the decoded `state` and `modules`, and the leftover
source. -/
def parseMetadata (src : String) :
    Except PyErr ((List (String × String)) × PyVal × PyVal × String) :=
  let defaults : List (String × String) :=
    [("title", "Untitled"), ("author", "Unknown"),
     ("start", "Error: you must specify a starting story node."),
     ("modules", "[]"), ("state", "{}")]
  let lines := pySplitLines src
  let (meta, breakIdx) := metaLoop lines 0 none defaults
  match jsonLoads (metaGet meta "state") with
  | .error e => .error e
  | .ok stateVal =>
      match jsonLoads (metaGet meta "modules") with
      | .error e => .error e
      | .ok modulesVal =>
          .ok (meta, stateVal, modulesVal,
            String.intercalate "\n" (lines.drop breakIdx))

/-- Try to match `NODE_START` (`^\s*#\s*([A-Za-z0-9_.-]+)\s*$`,
MULTILINE) at the line-start position `p`: skip whitespace (which may
cross line boundaries), require `#`, skip whitespace, read the name,
then let the trailing `\s*$` consume as much whitespace as it can while
still ending at the end of the string or just before a newline.
Returns `(p, matchEnd, name)`. -/
def nodeStartMatchAt (src : List Char) (p : Nat) :
    Option (Nat × Nat × String) :=
  let ws₁ := (src.drop p).takeWhile isPySpace
  let q := p + ws₁.length
  if src.getD q ' ' = '#' && q < src.length then
    let ws₂ := (src.drop (q + 1)).takeWhile isPySpace
    let r := q + 1 + ws₂.length
    let name := (src.drop r).takeWhile isMetaKeyChar
    if name.length ≥ 1 then
      let nameEnd := r + name.length
      let ws₃ := (src.drop nameEnd).takeWhile isPySpace
      -- the largest end position that is end-of-string or sits just
      -- before a newline
      let rec bestEnd : Nat → Option Nat
        | 0 =>
            if nameEnd = src.length || src.getD nameEnd ' ' = '\n' then
              some nameEnd
            else none
        | k + 1 =>
            let e := nameEnd + k + 1
            if e = src.length || src.getD e ' ' = '\n' then some e
            else bestEnd k
      match bestEnd ws₃.length with
      | some e => some (p, e, String.mk name)
      | none => none
    else none
  else none

/-- `NODE_START.search(src, pos)`: the leftmost match whose start is a
line start at or after `pos`. -/
def nodeStartSearch (src : List Char) (pos : Nat) :
    Option (Nat × Nat × String) :=
  go (src.length + 1 - pos) pos
where
  go : Nat → Nat → Option (Nat × Nat × String)
    | 0, _ => none
    | g + 1, p =>
        let isLineStart := p = 0 || src.getD (p - 1) ' ' = '\n'
        match (if isLineStart then nodeStartMatchAt src p else none) with
        | some r => some r
        | none => if p ≥ src.length then none else go g (p + 1)

/-- The link-scanning loop of `parse.parse_first_node`: find each `[[`,
locate the matching `]]` via `matching_brace` (an unterminated link is
skipped one character at a time), and record the extents
`(i+1, close)` in reverse order (the source builds the list with
`insert(0, ...)`). -/
def findLinks (content : List Char) : Nat → Nat → List (Nat × Nat)
  | 0, _ => []
  | gas + 1, p =>
      if p ≥ content.length then []
      else if content.getD (p - 1) ' ' = '[' && content.getD p ' ' = '['
          && p ≥ 1 then
        match matchingBrace content p '[' ']' with
        | .ok close => findLinks content gas (close + 1) ++ [(p + 1, close)]
        | .error _ => findLinks content gas (p + 1)
      else findLinks content gas (p + 1)

/-- The per-link body of `parse.parse_first_node`: split the stripped
link contents into display text, destination, and transition. -/
def splitLink (contents : List Char) :
    Except PyErr (String × String × String) :=
  match contents with
  | [] => .error (.indexError "string index out of range")
  | c₀ :: _ =>
      if c₀ = '"' then
        match stringLiteral contents 0 '"' with
        | .error e => .error e
        | .ok (endq, val) =>
            let tail := slice contents endq contents.length
            match indexOfFrom contents '|' endq with
            | some displayEnd =>
                let display := val ++ String.mk (slice contents endq displayEnd)
                .ok (finishLink contents display displayEnd)
            | none =>
                let display := val ++ String.mk tail
                .ok (finishLink contents display contents.length)
      else
        match indexOfFrom contents '|' 0 with
        | some displayEnd =>
            .ok (finishLink contents (String.mk (contents.take displayEnd))
              displayEnd)
        | none =>
            .ok (finishLink contents (String.mk contents) contents.length)
where
  /-- Destination and transition extraction shared by both display
  paths. -/
  finishLink (contents : List Char) (display : String) (displayEnd : Nat) :
      String × String × String :=
    if displayEnd < contents.length then
      match indexOfFrom contents '|' (displayEnd + 1) with
      | some destEnd =>
          let destination :=
            pyStrip (String.mk (slice contents (displayEnd + 1) destEnd))
          let destination := if destination = "" then display else destination
          (display, destination,
            pyStrip (String.mk (contents.drop (destEnd + 1))))
      | none =>
          ((display),
            pyStrip (String.mk (contents.drop (displayEnd + 1))),
            "")
    else (display, display, "")

/-- Successor-dict assignment (replace or append). -/
def succSet (m : List (String × PyVal)) (k : String) (v : PyVal) :
    List (String × PyVal) :=
  match m with
  | [] => [(k, v)]
  | (k₀, v₀) :: rest =>
      if k₀ = k then (k₀, v) :: rest else (k₀, v₀) :: succSet rest k v

/-- The per-link rewriting loop of `parse.parse_first_node`: working
through the extents last-to-first, parse each link, record its
successor entry, and splice the display text over the link literal. -/
def processLinks (gas : Nat) (content : List Char)
    (extents : List (Nat × Nat)) (succ : List (String × PyVal)) :
    Except PyErr (List Char × List (String × PyVal)) :=
  match gas with
  | 0 => .error (.runtimeError "link gas exhausted (unreachable)")
  | g + 1 =>
      match extents with
      | [] => .ok (content, succ)
      | (start, endIdx) :: rest =>
          let contents := pyStripChars (slice content start endIdx)
          match splitLink contents with
          | .error e => .error e
          | .ok (display, destination, transition) =>
              let content' := content.take (start - 2) ++ display.data
                ++ content.drop (endIdx + 2)
              let entry : PyVal :=
                if transition ≠ "" then
                  .list [.str destination, .str transition]
                else .str destination
              processLinks g content' rest (succSet succ display entry)

/-- `parse.parse_first_node(src)`: strip, find the first node heading
(which must sit at position 0 of the stripped source), cut the node at
the next heading, reflow, extract links, and build the `StoryNode`. -/
def parseFirstNode (src : String) :
    Except PyErr (Option StoryNode × String) :=
  let s := (pyStrip src).data
  match nodeStartSearch s 0 with
  | none => .ok (none, String.mk s)
  | some (start, matchEnd, name) =>
      if start ≠ 0 then .ok (none, String.mk s)
      else
        let nodeEnd :=
          match nodeStartSearch s matchEnd with
          | some (s₂, _, _) => s₂
          | none => s.length
        let content := reflow (slice s matchEnd nodeEnd)
        let leftovers := String.mk (s.drop nodeEnd)
        let extents := findLinks content (content.length + 2) 1
        match processLinks (extents.length + 1) content extents [] with
        | .error e => .error e
        | .ok (content', succ) =>
            .ok (some ⟨name, String.mk content', succ⟩, leftovers)

/-- The node-collection loop of `parse.parse_story`. -/
def parseNodesLoop (gas : Nat) (src : String) (acc : List StoryNode) :
    Except PyErr (List StoryNode) :=
  match gas with
  | 0 => .error (.runtimeError "node gas exhausted (unreachable)")
  | g + 1 =>
      match parseFirstNode src with
      | .error e => .error e
      | .ok (none, _) => .ok acc
      | .ok (some node, leftovers) =>
          parseNodesLoop g leftovers (acc ++ [node])

/-- `{ node.name: node for node in nodes }` (later entries win). -/
def nodesDict (nodes : List StoryNode) : List (String × StoryNode) :=
  nodes.foldl
    (fun acc node =>
      match acc.lookup node.name with
      | some _ => acc.map (fun kv =>
          if kv.1 = node.name then (kv.1, node) else kv)
      | none => acc ++ [(node.name, node)])
    []

/-- `parse.parse_story(src)`: strip comments, normalize newlines, parse
the metadata block, collect the nodes, and construct the `Story` —
passing the decoded `state` metadata as the fifth positional argument
of `Story(...)`, which is `modules` (so the parsed state lands in
`story.modules` and `story.setup` stays empty). -/
def parseStory (src : String) : Except PyErr Story :=
  let cleaned := String.mk (removeComments (normalizeNewlines src.data))
  match parseMetadata cleaned with
  | .error e => .error e
  | .ok (meta, stateVal, _modulesVal, rest) =>
      match parseNodesLoop (rest.length + 2) rest [] with
      | .error e => .error e
      | .ok nodes =>
          mkStory (metaGet meta "title") (metaGet meta "author")
            (metaGet meta "start") (nodesDict nodes) stateVal .pynone

/-- Word-boundary-delimited literal replacement:
`re.sub(r"\b{escaped}\b", lambda _: repl, content)`.  A boundary at a
position means exactly one of the adjacent characters is a word
character (out-of-bounds counts as non-word). -/
def replaceWordBounded (pat repl content : List Char) : List Char :=
  go (content.length + 1) 0
where
  boundary (cs : List Char) (q : Nat) : Bool :=
    let before := if q = 0 then false else isPyWord (cs.getD (q - 1) ' ')
    let after := if q ≥ cs.length then false else isPyWord (cs.getD q ' ')
    before ≠ after
  go : Nat → Nat → List Char
    | 0, p => content.drop p
    | gas + 1, p =>
        if p ≥ content.length then []
        else if pat ≠ [] && pat.isPrefixOf (content.drop p)
            && boundary content p && boundary content (p + pat.length) then
          repl ++ go gas (p + pat.length)
        else content.getD p ' ' :: go gas (p + 1)

/-- `parse.render_node(node)`: re-insert the `[[...]]` link markup over
each word-bounded occurrence of a successor display label, then render
the heading and content. -/
def renderNode (node : StoryNode) : String :=
  let content := node.successors.foldl
    (fun content kv =>
      let display := kv.1
      let markup : String :=
        match kv.2 with
        | .str destination =>
            if destination = display then "[[" ++ display ++ "]]"
            else "[[" ++ display ++ "|" ++ destination ++ "]]"
        | .list [.str destination, .str transition] =>
            if destination = display then
              "[[" ++ display ++ "||" ++ transition ++ "]]"
            else
              "[[" ++ display ++ "|" ++ destination ++ "|" ++ transition
                ++ "]]"
        | _ => "[[" ++ display ++ "]]"
      replaceWordBounded display.data markup.data content)
    node.content.data
  "# " ++ node.name ++ "\n\n" ++ String.mk content ++ "\n"

/-- `parse.render_story(story)`: the metadata header followed by each
node.  When `story.setup` is truthy the source appends the state block
to a never-initialized variable `preamble`, an `UnboundLocalError`
(a `NameError`); `modules` are never rendered. -/
def renderStory (story : Story) : Except PyErr String :=
  let header := "% title: " ++ story.title ++ "\n% author: " ++ story.author
    ++ "\n% start: " ++ story.start ++ "\n"
  if pyTruthy story.setup then
    .error (.nameError "name preamble is not defined")
  else
    .ok (story.nodes.foldl
      (fun acc kv => acc ++ "\n" ++ renderNode kv.2) header)

/-- `StoryNode.__eq__`: name, content, and successor dict equality. -/
def storyNodeEqB (a b : StoryNode) : Bool :=
  a.name = b.name && a.content = b.content
    && a.successors.length = b.successors.length
    && a.successors.all (fun kv =>
        match b.successors.lookup kv.1 with
        | some w => pyEqB kv.2 w
        | none => false)

/-- `Story.__eq__`: title, author, and node dict equality (`start`,
`modules` and `setup` are not compared by the source). -/
def storyEqB (a b : Story) : Bool :=
  a.title = b.title && a.author = b.author
    && a.nodes.length = b.nodes.length
    && a.nodes.all (fun kv =>
        match nodesLookup b.nodes kv.1 with
        | some w => storyNodeEqB kv.2 w
        | none => false)

/-- The round-trip of claim C9:
`parse_story(render_story(parse_story(s))) == parse_story(s)`,
evaluated to a Boolean when every stage succeeds. -/
def reparseRoundTrip (s : String) : Except PyErr Bool :=
  match parseStory s with
  | .error e => .error e
  | .ok st₁ =>
      match renderStory st₁ with
      | .error e => .error e
      | .ok rendered =>
          match parseStory rendered with
          | .error e => .error e
          | .ok st₂ => .ok (storyEqB st₂ st₁)

/-! ## Helper definitions and lemmas for the claims -/

/-- The `_errors_` entry of a state is well-formed: absent or a list
(the shape `Story.initial_state` establishes and `error` maintains). -/
def errorsOk (st : PyState) : Prop :=
  st.lookup "_errors_" = none ∨ ∃ l, st.lookup "_errors_" = some (.list l)

/-- The number of entries of the `_errors_` list of a state (zero when
absent). -/
def errorsLen (st : PyState) : Nat :=
  match st.lookup "_errors_" with
  | some (.list l) => l.length
  | _ => 0

theorem localVars_keys_local (st : PyState) (k : String)
    (h : k ∈ (localVars st).keys) : isLocalName k = true := by
  induction st with
  | nil => simp [localVars, PyState.keys] at h
  | cons hd tl ih =>
      obtain ⟨k₀, v₀⟩ := hd
      by_cases h₀ : isLocalName k₀
      · simp only [localVars, List.filter_cons, h₀, if_true] at h ih
        simp only [PyState.keys, List.map_cons, List.mem_cons] at h
        rcases h with h | h
        · subst h; exact h₀
        · exact ih (by simpa [localVars, PyState.keys] using h)
      · simp only [localVars, List.filter_cons] at h ih
        rw [if_neg (by simpa using h₀)] at h
        exact ih h

theorem not_mem_localVars_keys (st : PyState) (k : String)
    (h : isLocalName k = false) : k ∉ (localVars st).keys := by
  intro hmem
  rw [localVars_keys_local st k hmem] at h
  exact absurd h (by simp)

theorem mem_localVars (st : PyState) (k : String) (v : PyVal)
    (hl : isLocalName k = true) (h : (k, v) ∈ st) : (k, v) ∈ localVars st := by
  exact List.mem_filter.mpr ⟨h, by simpa using hl⟩

theorem localVars_keys_nodup (st : PyState) (hnd : st.keys.Nodup) :
    (localVars st).keys.Nodup := by
  have hsub : (localVars st).Sublist st := List.filter_sublist st
  exact (hsub.map Prod.fst).nodup hnd

/-- `lookup` determines membership. -/
theorem mem_of_lookup (st : PyState) (k : String) (v : PyVal)
    (h : st.lookup k = some v) : (k, v) ∈ st := by
  induction st with
  | nil => simp [PyState.lookup] at h
  | cons hd tl ih =>
      obtain ⟨k₀, v₀⟩ := hd
      rw [PyState.lookup] at h
      by_cases h₀ : k₀ = k
      · simp only [h₀, if_true] at h
        rw [Option.some.injEq] at h
        subst h₀; subst h
        exact List.mem_cons_self _ _
      · simp only [h₀, if_false] at h
        exact List.mem_cons_of_mem _ (ih h)

theorem lookup_none_iff_not_mem_keys (st : PyState) (k : String) :
    st.lookup k = none ↔ k ∉ st.keys := by
  induction st with
  | nil => simp [PyState.lookup, PyState.keys]
  | cons hd tl ih =>
      obtain ⟨k₀, v₀⟩ := hd
      by_cases h₀ : k₀ = k
      · simp [PyState.lookup, PyState.keys, h₀]
      · have hne : k ≠ k₀ := fun h => h₀ h.symm
        simp [PyState.lookup, PyState.keys, h₀, hne, ih]

theorem contains_iff_mem_keys (st : PyState) (k : String) :
    st.contains k = true ↔ k ∈ st.keys := by
  induction st with
  | nil => simp [PyState.contains, PyState.keys]
  | cons hd tl ih =>
      obtain ⟨k₀, v₀⟩ := hd
      simp only [PyState.contains, PyState.keys, List.map_cons, List.mem_cons,
        Bool.or_eq_true, decide_eq_true_eq, ih]
      exact or_congr_left eq_comm

theorem localVars_keys_sub (st : PyState) (k : String)
    (h : k ∈ (localVars st).keys) : k ∈ st.keys := by
  have hsub : (localVars st).Sublist st := List.filter_sublist st
  exact (hsub.map Prod.fst).mem h

/-- Scanning a text that contains no macro-start sigil copies the text
verbatim and leaves the state alone. -/
theorem scanText_none (evalM : String → List String → PyState →
    Except PyErr (PyVal × PyState)) (g : Nat) (c : Char) (cs : List Char)
    (st : PyState) (hns : macroStartSearch (c :: cs) 0 = none) :
    scanText evalM (g + 1) (c :: cs) 0 [] st =
      .ok ([String.mk (c :: cs)], st) := by
  simp [scanText, hns]

/-- One unfolding of `eval_text`: copy the state, snapshot the locals,
set `_context`, scan, join the bits and restore the locals. -/
theorem evalText_step (n : Nat) (text : String) (story : Story)
    (st : PyState) (ctx : PyVal) (mf : Option ModuleFinder) :
    evalText (n + 1) text story st ctx mf =
      match scanText (fun nm as s => evalMacroFn n nm as story s mf)
          (text.data.length + 2) text.data 0 []
          (st.set "_context" (if pyTruthy ctx then ctx else PyVal.list []))
          with
      | .error e => .error e
      | .ok (bits, st₂) =>
          .ok (String.join bits, st₂.update (localVars st)) := by
  with_unfolding_all rfl

/-- Scanning `"(nonexistent~)"` performs exactly one macro evaluation
with name `nonexistent` and no arguments. -/
theorem scanText_nonexistent (evalM : String → List String → PyState →
    Except PyErr (PyVal × PyState)) (st : PyState) :
    scanText evalM ("(nonexistent~)".data.length + 2)
        "(nonexistent~)".data 0 [] st =
      match evalM "nonexistent" [] st with
      | .error e => .error e
      | .ok (mv, st') => .ok (["", pyStr mv], st') := by
  with_unfolding_all rfl

/-- A macro name that is no story node, contains no dot, and is no
builtin falls through to the `Unrecognized macro` error. -/
theorem evalMacroFn_unrecognized (n : Nat) (story : Story) (st : PyState)
    (mf : Option ModuleFinder)
    (hnode : nodesLookup story.nodes "nonexistent" = none) :
    evalMacroFn (n + 1) "nonexistent" [] story st mf =
      match errorFn "Unrecognized macro 'nonexistent'." st with
      | .error e => .error e
      | .ok (exp, st') => .ok (.str exp, st') := by
  simp only [evalMacroFn]
  rw [hnode]
  with_unfolding_all rfl

/-- The effect of `error` on a state whose `_errors_` entry is
well-formed, specialised to the `Unrecognized macro` message. -/
theorem errorFn_unrecognized (st : PyState) (herr : errorsOk st) :
    errorFn "Unrecognized macro 'nonexistent'." st =
      .ok ("<<Error: Unrecognized macro 'nonexistent'.>>",
        st.set "_errors_" (.list ((match st.lookup "_errors_" with
          | some (.list l) => l
          | _ => []) ++
          [.str "Error: Unrecognized macro 'nonexistent'."]))) := by
  rcases herr with h | ⟨l, h⟩ <;>
    · simp only [errorFn]
      rw [h]
      with_unfolding_all rfl

/-- Scanning the content of the self-referential `loop` node performs
exactly one macro evaluation with name `loop` and no arguments. -/
theorem scanText_loop (evalM : String → List String → PyState →
    Except PyErr (PyVal × PyState)) (st : PyState) :
    scanText evalM ("(loop~)".data.length + 2) "(loop~)".data 0 [] st =
      match evalM "loop" [] st with
      | .error e => .error e
      | .ok (mv, st') => .ok (["", pyStr mv], st') := by
  with_unfolding_all rfl

/-- One unfolding of `eval_text` on the content of the `loop` node. -/
theorem evalText_loop_step (n : Nat) (st : PyState) (ctx : PyVal)
    (mf : Option ModuleFinder) :
    evalText (n + 1) "(loop~)" loopStory st ctx mf =
      match evalMacroFn n "loop" [] loopStory
          (st.set "_context" (if pyTruthy ctx then ctx else PyVal.list []))
          mf with
      | .error e => .error e
      | .ok (mv, st₂) =>
          .ok (String.join ["", pyStr mv], st₂.update (localVars st)) := by
  rw [evalText_step, scanText_loop]
  cases evalMacroFn n "loop" [] loopStory
      (st.set "_context" (if pyTruthy ctx then ctx else PyVal.list [])) mf with
  | error e => rfl
  | ok p => rfl

/-- One unfolding of `eval_macro` on the name `loop` in `loopStory`:
the node is found and its content is evaluated recursively. -/
theorem evalMacroFn_loop_step (m : Nat) (st : PyState)
    (mf : Option ModuleFinder) :
    evalMacroFn (m + 1) "loop" [] loopStory st mf =
      match evalText m "(loop~)" loopStory st (PyVal.list []) mf with
      | .error e => .error e
      | .ok (s, st') => .ok (.str s, st') := by
  with_unfolding_all rfl

/-- Evaluating the self-referential `loop` node exhausts any recursion
budget: for every fuel value the result is a `RecursionError`, the
Python interpreter recursion limit being the only bound. -/
theorem evalText_loop_diverges : ∀ (fuel : Nat) (st : PyState)
    (ctx : PyVal) (mf : Option ModuleFinder),
    evalText fuel "(loop~)" loopStory st ctx mf =
      .error .recursionError := by
  intro fuel
  induction fuel using Nat.strong_induction_on with
  | h fuel ih =>
      intro st ctx mf
      rcases fuel with _ | _ | m
      · rfl
      · rw [evalText_loop_step]
        with_unfolding_all rfl
      · rw [evalText_loop_step, evalMacroFn_loop_step, ih m (by omega)]

/-! ## The claims -/

/-- C1.  The claim states that `eval_expr("1 + 2")` returns `3` and
`eval_expr("1 * 2 + 3")` returns `7` with the `*` node a child of the
`+` node.  The parser does produce exactly the documented precedence
trees (the `*` node is a child of the `+` node, never the reverse), but
evaluation of either expression raises: `eval_tree` hands the raw
integer constants to `ops.op_result`, whose `types = [a[0] for a in
args]` subscripts an `int` — a `TypeError` — before `resolve_op` (which
itself references the undefined name `args`) is ever consulted.  So with
`ops.Operator` modelled (see `OperatorMk`), `eval_expr("1 + 2")` raises
`TypeError` instead of returning `3`. -/
theorem claim1_precedence_parses_but_eval_raises :
    parseExpr "1 + 2" =
      .ok (.mk "complete" true (some "+") (some 2)
        [valueNode (.int 1), valueNode (.int 2)] none false)
    ∧ parseExpr "1 * 2 + 3" =
      .ok (.mk "complete" true (some "+") (some 2)
        [.mk "complete" false (some "*") (some 2)
          [valueNode (.int 1), valueNode (.int 2)] none false,
         valueNode (.int 3)] none false)
    ∧ evalExpr 50 "1 + 2" story₀ [] none =
      .error (.typeError "int object is not subscriptable")
    ∧ evalExpr 50 "1 * 2 + 3" story₀ [] none =
      .error (.typeError "int object is not subscriptable") := by
  refine ⟨rfl, rfl, rfl, rfl⟩

/-- C4.  The claim states that `eval_expr("False and (1/0)")` does not
raise a division error (short-circuit), the left operand is evaluated
first, and the result of `and`/`or` is always Boolean.  In this
snapshot lexing `"False and (1/0)"` raises `AttributeError` (at the
`(`, `MACRO_START.search` returns `None` and `.start()` is taken; a
plain group would raise `TypeError` from the two-argument
`units.append`), and even for the lexable `"False and True"` the `and`
branch of `eval_tree` calls `ops.is_true(val)` with one argument where
`is_true(typ, val)` requires two — a `TypeError` on every `and`/`or`
evaluation, so no Boolean is ever produced. -/
theorem claim4_short_circuit_eval_raises :
    lexExpr "False and (1/0)" =
      .error (.attributeError "NoneType object has no attribute start")
    ∧ evalExpr 50 "False and True" story₀ [] none =
      .error (.typeError
        "is_true() missing 1 required positional argument: val") := by
  refine ⟨rfl, rfl⟩

/-- C5 counterexample.  The claim states `eval_expr("[] | + 0")` yields
`0` (and `eval_expr("[1,2,3,4] | + 0")` yields `10`); in fact the lexer
raises `TypeError` at the `[` (the source calls `units.append("index",
"open")` with two arguments), so the expression never parses, let alone
evaluates to `0`. -/
theorem claim5_reduce_examples_counterexample :
    evalExpr 50 "[] | + 0" story₀ [] none =
      .error (.typeError "append() takes exactly one argument (2 given)") := by
  rfl

/-- C5 amended.  `reduce_lst` applied to an empty collection returns a
variant-appropriate zero for an int, float, string, list or dict seed
without invoking the folded operator (the result is independent of the
operator operand), but a seed of any other variant falls through to
`lst[0]` and raises `IndexError` rather than returning `None`; and the
two `eval_expr` examples of the claim raise `TypeError` in the lexer
(list literals are not lexable), so neither yields its stated value. -/
theorem claim5_reduce_empty_zeros_amended :
    (∀ (st : PyState) (op seed : PyVal),
      reduceLst st (.tuple [.str "list", .list []])
        (.tuple [.str "op", op]) (.tuple [.str "int", seed]) =
        .ok (.tuple [.str "int", .int 0], st))
    ∧ (∀ (st : PyState) (op seed : PyVal),
      reduceLst st (.tuple [.str "list", .list []])
        (.tuple [.str "op", op]) (.tuple [.str "float", seed]) =
        .ok (.tuple [.str "float", .int 0], st))
    ∧ (∀ (st : PyState) (op seed : PyVal),
      reduceLst st (.tuple [.str "list", .list []])
        (.tuple [.str "op", op]) (.tuple [.str "string", seed]) =
        .ok (.tuple [.str "string", .str ""], st))
    ∧ (∀ (st : PyState) (op seed : PyVal),
      reduceLst st (.tuple [.str "list", .list []])
        (.tuple [.str "op", op]) (.tuple [.str "list", seed]) =
        .ok (.tuple [.str "list", .list []], st))
    ∧ (∀ (st : PyState) (op seed : PyVal),
      reduceLst st (.tuple [.str "list", .list []])
        (.tuple [.str "op", op]) (.tuple [.str "dict", seed]) =
        .ok (.tuple [.str "dict", .dict []], st))
    ∧ (∀ (st : PyState) (op seed : PyVal),
      reduceLst st (.tuple [.str "list", .list []])
        (.tuple [.str "op", op]) (.tuple [.str "boolean", seed]) =
        .error (.indexError "list index out of range"))
    ∧ evalExpr 50 "[1,2,3,4] | + 0" story₀ [] none =
      .error (.typeError "append() takes exactly one argument (2 given)") := by
  refine ⟨fun st op seed => rfl, fun st op seed => rfl, fun st op seed => rfl,
    fun st op seed => rfl, fun st op seed => rfl, fun st op seed => rfl, rfl⟩

/-- C7.  The claim states that a macro sigil with no matching close
delimiter is kept as literal text and all surrounding text is still
rendered.  In fact the unterminated-sigil path of `eval_text` only
advances the scan position (`i = ms.end() + 1; continue`) without
appending anything: for `"abc (foo~ xyz"` the leading text, the sigil,
and one further character are all dropped and only `"xyz"` is returned
(together with the state, whose `_context` was set), while the warning
printed to stderr claims the macro was treated as text. -/
theorem claim7_unterminated_sigil_drops_text :
    evalText 50 "abc (foo~ xyz" story₀ [] .pynone none =
      .ok ("xyz", [("_context", .list [])]) := by
  rfl

/-- A story source whose single link display label (`north`) re-occurs
as a word-boundary-delimited substring of the rendered content, so the
rendered markup is re-extracted exactly. -/
def storySrcWordLink : String :=
  "% title: T\n% author: A\n% start: aa\n\n# aa\n\nGo [[north|bb|walk north]] now.\n\n# bb\n\nThe end.\n"

/-- A story source whose link display label `go!` ends in a non-word
character, so `render_node` fails to re-insert the markup (the pattern
`\bgo\!\b` has no word boundary after `!`) and the successor is lost on
re-parse. -/
def storySrcPunctLink : String :=
  "% title: T\n% author: A\n% start: aa\n\n# aa\n\nSee [[go!|bb|walk]] now.\n\n# bb\n\nEnd.\n"

/-- C9 counterexample.  The claim states
`parse_story(render_story(parse_story(s))) == parse_story(s)` for every
valid story source; for `storySrcPunctLink` the round trip compares
unequal (the `go!` successor is dropped), refuting the claim. -/
theorem claim9_reparse_counterexample :
    reparseRoundTrip storySrcPunctLink = .ok false := by
  rfl

/-- C9 amended.  Re-parse idempotence does not hold for every valid
source: a successor whose display label does not re-occur as a
word-boundary-delimited substring of the content is dropped by
`render_node` (see the counterexample).  For sources whose rendered
markup is re-extracted exactly — such as `storySrcWordLink` — the round
trip `parse_story(render_story(parse_story(s))) == parse_story(s)`
holds, under `Story.__eq__`, which compares title, author and nodes but
ignores `start`, `modules` and `setup` (and `render_story` never emits
the `state` metadata: `parse_story` misroutes the parsed state into the
`modules` argument, leaving `setup` empty). -/
theorem claim9_reparse_amended :
    reparseRoundTrip storySrcWordLink = .ok true := by
  rfl

/-- C3 counterexample.  The claim states that a node-local variable
first created during a text-evaluation call is not present afterwards.
In fact `eval_text` restores the snapshot with `state.update(local_vars)`,
which overwrites but never deletes: evaluating `(set~ _x~ 1)` from an
empty state leaves the freshly created node-local `_x` (and the
node-local `_context`) in the returned state. -/
theorem claim3_local_leak_counterexample :
    evalText 50 "(set~ _x~ 1)" story₀ [] .pynone none =
      .ok ("1", [("_context", PyVal.list []), ("_x", PyVal.int 1)]) := by
  with_unfolding_all rfl

/-- C3 amended.  The restore half of the claim holds: for every state
with distinct keys, every node-local variable that existed before the
call keeps its old value in the returned state (`state.update(local_vars)`
writes the snapshot back), and mutations of story-global variables
persist (`(set~ g~ 1)` leaves `g = 1` behind).  The deletion half is
false — see the counterexample: a node-local created during the call
survives it. -/
theorem claim3_frame_effect_amended :
    (∀ (fuel : Nat) (text : String) (story : Story) (st : PyState)
        (ctx : PyVal) (mf : Option ModuleFinder) (out : String)
        (stOut : PyState), st.keys.Nodup →
        evalText fuel text story st ctx mf = .ok (out, stOut) →
        ∀ (v : String) (val : PyVal), isLocalName v = true →
          st.lookup v = some val → stOut.lookup v = some val)
    ∧ evalText 50 "(set~ g~ 1)" story₀ [] .pynone none =
        .ok ("1", [("_context", PyVal.list []), ("g", PyVal.int 1)]) := by
  refine ⟨?_, by with_unfolding_all rfl⟩
  intro fuel text story st ctx mf out stOut hnd hok v val hl hlk
  cases fuel with
  | zero => simp [evalText] at hok
  | succ n =>
      rw [evalText_step] at hok
      split at hok
      · exact Except.noConfusion hok
      · rw [Except.ok.injEq, Prod.mk.injEq] at hok
        obtain ⟨hout, hst⟩ := hok
        subst hst
        have hmem : (v, val) ∈ localVars st :=
          mem_localVars st v val hl (mem_of_lookup st v val hlk)
        exact PyState.lookup_update_mem _ (localVars st) v val
          (localVars_keys_nodup st hnd) hmem

theorem claim3_frame_effect_amended_witness :
    (PyState.keys [("_a", PyVal.int 5)]).Nodup
    ∧ evalText 50 "hi" story₀ [("_a", PyVal.int 5)] PyVal.pynone none =
        .ok ("hi", [("_a", PyVal.int 5), ("_context", PyVal.list [])])
    ∧ isLocalName "_a" = true
    ∧ PyState.lookup [("_a", PyVal.int 5)] "_a" = some (PyVal.int 5)
    ∧ PyState.lookup [("_a", PyVal.int 5), ("_context", PyVal.list [])]
        "_a" = some (PyVal.int 5) :=
  ⟨by decide, by with_unfolding_all rfl, by rfl, by rfl,
    claim3_frame_effect_amended.1 50 "hi" story₀ [("_a", PyVal.int 5)]
      PyVal.pynone none "hi"
      [("_a", PyVal.int 5), ("_context", PyVal.list [])]
      (by decide) (by rfl) "_a" (PyVal.int 5) (by rfl) (by rfl)⟩

/-- C2 counterexample.  The claim quantifies over every state, but when
the `_errors_` entry of the state is not a list, `error` raises an
`AttributeError` from `state["_errors_"].append(...)`, so `eval_text`
on `"(nonexistent~)"` does raise for such states. -/
theorem claim2_error_degradation_counterexample :
    evalText 5 "(nonexistent~)" story₀ [("_errors_", PyVal.int 0)]
        PyVal.pynone none =
      .error (.attributeError "object has no attribute append") := by
  with_unfolding_all rfl

/-- C2 amended.  For every story without a `nonexistent` node and every
state whose `_errors_` entry is absent or a list, `eval_text` on
`"(nonexistent~)"` does not raise: it returns the inline error text
`<<Error: Unrecognized macro 'nonexistent'.>>` (which contains `Error`)
together with a state whose `_errors_` list has exactly one more entry
than before. -/
theorem claim2_error_degradation_amended (story : Story) (st : PyState)
    (ctx : PyVal) (mf : Option ModuleFinder) (fuel : Nat)
    (hnode : nodesLookup story.nodes "nonexistent" = none)
    (herr : errorsOk st) :
    ∃ stOut,
      evalText (fuel + 2) "(nonexistent~)" story st ctx mf =
        .ok ("<<Error: Unrecognized macro 'nonexistent'.>>", stOut)
      ∧ errorsLen stOut = errorsLen st + 1 := by
  have hlook : (st.set "_context"
        (if pyTruthy ctx then ctx else PyVal.list [])).lookup "_errors_"
      = st.lookup "_errors_" :=
    PyState.lookup_set_other st "_context" "_errors_" _ (by decide)
  have herr1 : errorsOk (st.set "_context"
      (if pyTruthy ctx then ctx else PyVal.list [])) := by
    rcases herr with h | ⟨l, h⟩
    · exact Or.inl (hlook.trans h)
    · exact Or.inr ⟨l, hlook.trans h⟩
  have hne : ¬ "_errors_" ∈ (localVars st).keys :=
    not_mem_localVars_keys st "_errors_" (by rfl)
  refine ⟨((st.set "_context" (if pyTruthy ctx then ctx else PyVal.list
      [])).set "_errors_" (PyVal.list ((match (st.set "_context"
        (if pyTruthy ctx then ctx else PyVal.list [])).lookup "_errors_" with
      | some (.list l) => l
      | _ => []) ++
      [.str "Error: Unrecognized macro 'nonexistent'."]))).update
        (localVars st), ?_, ?_⟩
  · rw [show fuel + 2 = (fuel + 1) + 1 from rfl, evalText_step,
      scanText_nonexistent,
      evalMacroFn_unrecognized fuel story _ mf hnode,
      errorFn_unrecognized _ herr1]
    with_unfolding_all rfl
  · simp only [errorsLen]
    rw [PyState.lookup_update_not_mem _ _ _ hne, PyState.lookup_set_self]
    rcases herr with h | ⟨l, h⟩ <;> rw [hlook, h] <;> simp

theorem claim2_error_degradation_amended_witness :
    nodesLookup story₀.nodes "nonexistent" = none
    ∧ errorsOk ([] : PyState)
    ∧ ∃ stOut,
        evalText 5 "(nonexistent~)" story₀ [] PyVal.pynone none =
          .ok ("<<Error: Unrecognized macro 'nonexistent'.>>", stOut)
        ∧ errorsLen stOut = errorsLen ([] : PyState) + 1 :=
  ⟨by rfl, Or.inl (by rfl),
    claim2_error_degradation_amended story₀ [] PyVal.pynone none 3
      (by rfl) (Or.inl (by rfl))⟩

/-- C6.  The claim states that ordering comparisons between operands of
incompatible variants evaluate to `false` without error.  In fact every
ordering comparison evaluated through `ops.op_result` raises
`NameError` (`resolve_op` reads the undefined name `args`), so the
registered handlers are unreachable; and the handlers themselves
(`ops.less` and friends), called directly on incomparable operands,
return the bare Python value `False` — not a `("boolean", ...)` typed
value and not paired with the state as the claim asserts. -/
theorem claim6_incomparable_comparisons (st : PyState)
    (t₁ v₁ t₂ v₂ : PyVal) (h : comparableTags t₁ t₂ = false) :
    opResult (.str "<") st [.tuple [t₁, v₁], .tuple [t₂, v₂]] =
        .error (.nameError "name args is not defined")
    ∧ opResult (.str ">") st [.tuple [t₁, v₁], .tuple [t₂, v₂]] =
        .error (.nameError "name args is not defined")
    ∧ opResult (.str "<=") st [.tuple [t₁, v₁], .tuple [t₂, v₂]] =
        .error (.nameError "name args is not defined")
    ∧ opResult (.str ">=") st [.tuple [t₁, v₁], .tuple [t₂, v₂]] =
        .error (.nameError "name args is not defined")
    ∧ lessOp st (.tuple [t₁, v₁]) (.tuple [t₂, v₂]) = .ok (.bool false)
    ∧ greaterOp st (.tuple [t₁, v₁]) (.tuple [t₂, v₂]) = .ok (.bool false)
    ∧ leqOp st (.tuple [t₁, v₁]) (.tuple [t₂, v₂]) = .ok (.bool false)
    ∧ geqOp st (.tuple [t₁, v₁]) (.tuple [t₂, v₂]) = .ok (.bool false) := by
  refine ⟨by rfl, by rfl, by rfl, by rfl, ?_, ?_, ?_, ?_⟩ <;>
    simp [lessOp, greaterOp, leqOp, geqOp, pyUnpack2, h]

theorem claim6_incomparable_comparisons_witness :
    comparableTags (.str "int") (.str "string") = false
    ∧ opResult (.str "<") [] [.tuple [.str "int", .int 1],
        .tuple [.str "string", .str "a"]] =
        .error (.nameError "name args is not defined")
    ∧ lessOp [] (.tuple [.str "int", .int 1])
        (.tuple [.str "string", .str "a"]) = .ok (.bool false) := by
  refine ⟨by rfl, ?_, ?_⟩
  · exact (claim6_incomparable_comparisons [] (.str "int") (.int 1)
      (.str "string") (.str "a") (by rfl)).1
  · exact (claim6_incomparable_comparisons [] (.str "int") (.int 1)
      (.str "string") (.str "a") (by rfl)).2.2.2.2.1

/-- C8 counterexample.  The claim states that expansion exceeding the
bound is a fatal `ExpansionOverflow`.  No such bound or error exists in
the code: a self-referential node recurses through
`eval_text -> eval_macro -> eval_text` until the Python interpreter
recursion limit fires, yielding a `RecursionError` (modelled by the
fuel), never an `ExpansionOverflow`. -/
theorem claim8_expansion_counterexample :
    evalText 1000 "(loop~)" loopStory [] (PyVal.list []) none =
      .error .recursionError :=
  evalText_loop_diverges 1000 [] (PyVal.list []) none

/-- C8 amended.  Evaluation of a self-referential node terminates for
every recursion budget, with a `RecursionError` from the interpreter
recursion limit — the only enforced bound; there is no rescan loop and
no `ExpansionOverflow` anywhere in the code. -/
theorem claim8_recursion_bound_amended (fuel : Nat) (st : PyState)
    (ctx : PyVal) (mf : Option ModuleFinder) :
    evalText fuel "(loop~)" loopStory st ctx mf =
      .error .recursionError :=
  evalText_loop_diverges fuel st ctx mf

/-- C10 counterexample.  The claim states that the returned state has
`_context` set to the supplied context list.  But `_context` is itself
a node-local name, so the final `state.update(local_vars)` restores its
old value: starting from a state with `_context = [1]` and supplying
context `[2]`, the returned state still has `_context = [1]`. -/
theorem claim10_context_counterexample :
    evalText 50 "hello" story₀
        [("_context", PyVal.list [PyVal.int 1]), ("g", PyVal.int 7)]
        (PyVal.list [PyVal.int 2]) none =
      .ok ("hello",
        [("_context", PyVal.list [PyVal.int 1]), ("g", PyVal.int 7)]) := by
  with_unfolding_all rfl

/-- C10 amended.  For every text without the macro-start sigil pattern
and every state with distinct keys, `eval_text` returns the text
unchanged; the returned state agrees with the input state on every key
other than `_context`, keeps the old `_context` when the input state had
one (see the counterexample), and has `_context` set to the supplied
context list only when the input state had no `_context` entry. -/
theorem claim10_sigil_free_amended (st : PyState) (text : String)
    (story : Story) (ctx : List PyVal) (mf : Option ModuleFinder)
    (fuel : Nat) (hnd : st.keys.Nodup)
    (hns : macroStartSearch text.data 0 = none) :
    ∃ stOut,
      evalText (fuel + 1) text story st (PyVal.list ctx) mf =
        .ok (text, stOut)
      ∧ (∀ k, k ≠ "_context" → stOut.lookup k = st.lookup k)
      ∧ (st.contains "_context" = true →
          stOut.lookup "_context" = st.lookup "_context")
      ∧ (st.contains "_context" = false →
          stOut.lookup "_context" = some (PyVal.list ctx)) := by
  obtain ⟨cs⟩ := text
  have hctx : (if pyTruthy (PyVal.list ctx) then PyVal.list ctx
      else PyVal.list []) = PyVal.list ctx := by
    cases ctx <;> rfl
  refine ⟨(st.set "_context" (PyVal.list ctx)).update (localVars st),
    ?_, ?_, ?_, ?_⟩
  · cases cs with
    | nil =>
        rw [evalText_step, hctx]
        with_unfolding_all rfl
    | cons c cs =>
        rw [evalText_step, hctx,
          show (String.mk (c :: cs)).data = c :: cs from rfl,
          show (c :: cs).length + 2 = ((c :: cs).length + 1) + 1 from rfl,
          scanText_none _ _ _ _ _ hns]
        with_unfolding_all rfl
  · intro k hk
    by_cases hl : isLocalName k
    · cases hlk : st.lookup k with
      | none =>
          have hnk : ¬ k ∈ st.keys :=
            (lookup_none_iff_not_mem_keys st k).mp hlk
          have hnl : ¬ k ∈ (localVars st).keys :=
            fun hm => hnk (localVars_keys_sub st k hm)
          rw [PyState.lookup_update_not_mem _ _ _ hnl,
            PyState.lookup_set_other st "_context" k _ hk, hlk]
      | some v =>
          have hmem : (k, v) ∈ localVars st :=
            mem_localVars st k v hl (mem_of_lookup st k v hlk)
          rw [PyState.lookup_update_mem _ _ _ _
            (localVars_keys_nodup st hnd) hmem]
    · have hnl : ¬ k ∈ (localVars st).keys :=
        not_mem_localVars_keys st k (by simpa using hl)
      rw [PyState.lookup_update_not_mem _ _ _ hnl,
        PyState.lookup_set_other st "_context" k _ hk]
  · intro hc
    cases hlk : st.lookup "_context" with
    | none =>
        exact absurd ((contains_iff_mem_keys st _).mp hc)
          ((lookup_none_iff_not_mem_keys st _).mp hlk)
    | some v =>
        have hmem : ("_context", v) ∈ localVars st :=
          mem_localVars st _ v (by rfl) (mem_of_lookup st _ v hlk)
        rw [PyState.lookup_update_mem _ _ _ _
          (localVars_keys_nodup st hnd) hmem]
  · intro hc
    have hnk : ¬ "_context" ∈ st.keys := by
      intro hm
      rw [(contains_iff_mem_keys st _).mpr hm] at hc
      exact absurd hc (by decide)
    have hnl : ¬ "_context" ∈ (localVars st).keys :=
      fun hm => hnk (localVars_keys_sub st _ hm)
    rw [PyState.lookup_update_not_mem _ _ _ hnl, PyState.lookup_set_self]

theorem claim10_sigil_free_amended_witness :
    (PyState.keys [("a", PyVal.int 1)]).Nodup
    ∧ macroStartSearch "hi".data 0 = none
    ∧ ∃ stOut,
        evalText 50 "hi" story₀ [("a", PyVal.int 1)]
            (PyVal.list [PyVal.int 3]) none =
          .ok ("hi", stOut)
        ∧ (∀ k, k ≠ "_context" →
            stOut.lookup k = PyState.lookup [("a", PyVal.int 1)] k)
        ∧ (PyState.contains [("a", PyVal.int 1)] "_context" = true →
            stOut.lookup "_context" =
              PyState.lookup [("a", PyVal.int 1)] "_context")
        ∧ (PyState.contains [("a", PyVal.int 1)] "_context" = false →
            stOut.lookup "_context" = some (PyVal.list [PyVal.int 3])) :=
  ⟨by decide, by rfl,
    claim10_sigil_free_amended [("a", PyVal.int 1)] "hi" story₀
      [PyVal.int 3] none 49 (by decide) (by rfl)⟩

end Firelight

